import Mathlib

/-!
Verification development for `.manage_sparkle.py`, a utility that adds or
removes the Sparkle package's reference entries in an Xcode
`project.pbxproj` file by targeted regular-expression text substitution.

The file contents are modelled as `List Char`.  The script only uses a
small regex subset: literal runs, `\d+`, `[^}]+` and `[^;]+`.  In every
pattern of the script, the character class of a greedy `+` item can never
match the first character of the literal that follows it (`\d` vs a space,
`[^}]` vs `}`, `[^;]` vs `;`), so Python's greedy backtracking semantics
coincide with deterministic maximal munch, which is what `matchLen`
implements.  `re.sub` with `count = 0` is modelled by a left-to-right scan
that restarts after the end of each (non-empty) match, and `re.search` by
`hasMatch2`.  Recursive scans use an explicit fuel argument (the length of
the scanned list always bounds the fuel needed) so that every function
reduces in the kernel.
-/

set_option maxRecDepth 100000

/-- Coerce a string literal to the `List Char` representation. -/
def S (s : String) : List Char := s.data

/-- The three character classes appearing in the script's patterns. -/
inductive CharClass
  | digit
  | notBrace
  | notSemi
deriving DecidableEq, Repr

def charIn : CharClass → Char → Bool
  | CharClass.digit, c => c.isDigit
  | CharClass.notBrace, c => !(c == '}')
  | CharClass.notSemi, c => !(c == ';')

/-- A pattern element: a literal run, or a greedy one-or-more character
class (`\d+`, `[^}]+`, `[^;]+`). -/
inductive Pat
  | lit : List Char → Pat
  | many1 : CharClass → Pat

/-- Length of the maximal prefix of `s` whose characters are all in `cc`. -/
def countWhile (cc : CharClass) : List Char → Nat
  | [] => 0
  | c :: cs => if charIn cc c then countWhile cc cs + 1 else 0

/-- Length of the match of the pattern sequence at the head of `s`
(deterministic maximal munch; see the header comment for why this agrees
with Python's greedy matching on the script's patterns). -/
def matchLen : List Pat → List Char → Option Nat
  | [], _ => some 0
  | Pat.lit l :: ps, s =>
    if l.isPrefixOf s then (matchLen ps (List.drop l.length s)).map (fun n => l.length + n)
    else none
  | Pat.many1 cc :: ps, s =>
    let k := countWhile cc s
    if k = 0 then none
    else (matchLen ps (List.drop k s)).map (fun n => k + n)

/-- Match of a two-group pattern `(p1)(p2)` at the head of `s`, giving the
lengths consumed by each group. -/
def matchLen2 (p1 p2 : List Pat) (s : List Char) : Option (Nat × Nat) :=
  (matchLen p1 s).bind (fun n1 => (matchLen p2 (List.drop n1 s)).map (fun n2 => (n1, n2)))

/-- `re.search` for the two-group pattern: does it match at any position? -/
def hasMatch2 (p1 p2 : List Pat) : List Char → Bool
  | [] => (matchLen2 p1 p2 []).isSome
  | c :: cs => (matchLen2 p1 p2 (c :: cs)).isSome || hasMatch2 p1 p2 cs

/-- `re.sub(p, '', s)`: delete every (leftmost, non-overlapping) match.
The second argument is the number of characters still to swallow from the
current match (scanning is suspended inside a match); a fresh scan starts
in state `0`.  A zero-length match is treated as no match; none of the
script's patterns can match the empty string. -/
def reSubDelS (p : List Pat) : List Char → Nat → List Char
  | [], _ => []
  | _ :: cs, k + 1 => reSubDelS p cs k
  | c :: cs, 0 =>
    match matchLen p (c :: cs) with
    | some (n + 1) => reSubDelS p cs n
    | _ => c :: reSubDelS p cs 0

def reSubDel (p : List Pat) (s : List Char) : List Char := reSubDelS p s 0

/-- `re.sub((p1)(p2), \1 ++ ins ++ \2, s)`: at every match of `p1` directly
followed by `p2`, keep both matched groups and insert `ins` between them,
then continue scanning after the match.  The `Nat` state counts characters
of the current match still to pass over (they were already emitted through
the `take`s). -/
def reSubInsS (p1 p2 : List Pat) (ins : List Char) : List Char → Nat → List Char
  | [], _ => []
  | _ :: cs, k + 1 => reSubInsS p1 p2 ins cs k
  | c :: cs, 0 =>
    match matchLen2 p1 p2 (c :: cs) with
    | some (n1, n2) =>
      if n1 + n2 = 0 then c :: reSubInsS p1 p2 ins cs 0
      else
        List.take n1 (c :: cs) ++ ins ++ List.take n2 (List.drop n1 (c :: cs))
          ++ reSubInsS p1 p2 ins cs (n1 + n2 - 1)
    | none => c :: reSubInsS p1 p2 ins cs 0

def reSubIns (p1 p2 : List Pat) (ins : List Char) (s : List Char) : List Char :=
  reSubInsS p1 p2 ins s 0

/-- Python's `needle in haystack` (substring containment). -/
def containsSub (n : List Char) : List Char → Bool
  | [] => n.isEmpty
  | c :: cs => n.isPrefixOf (c :: cs) || containsSub n cs

/-- Python's `haystack.count(needle)`: number of non-overlapping
occurrences, scanning left to right.  The `Nat` state counts characters of
the current occurrence still to pass over. -/
def countOccS (n : List Char) : List Char → Nat → Nat
  | [], _ => 0
  | _ :: cs, k + 1 => countOccS n cs k
  | c :: cs, 0 =>
    if n.isPrefixOf (c :: cs) then countOccS n cs (n.length - 1) + 1
    else countOccS n cs 0

def countOcc (n : List Char) (s : List Char) : Nat := countOccS n s 0

/-! ## Constants of the script -/

/-- `PKG_REF_ID`. -/
def PKG_REF_ID : String := "27SPARKLE00000000001"

/-- `PKG_PROD_ID`. -/
def PKG_PROD_ID : String := "27SPARKLE00000000002"

/-- `BUILD_FILE_ID`. -/
def BUILD_FILE_ID : String := "27SPARKLE00000000003"

/-- The managed dependency's name, `'Sparkle'`. -/
def sparkleName : List Char := S "Sparkle"

/-- The reserved identifier prefix `27SPARKLE`. -/
def key27 : List Char := S "27SPARKLE"

/-- The primary-identifier marker checked by the fully-configured test:
`f'{PKG_REF_ID} /* XCRemoteSwiftPackageReference "Sparkle" */ ='`. -/
def markerFull : List Char :=
  S "27SPARKLE00000000001 /* XCRemoteSwiftPackageReference \"Sparkle\" */ ="

/-! ## The removal patterns of `remove_sparkle` (lines 23-40) -/

def rp1 : List Pat :=
  [Pat.lit (S "\t\t\t\t27SPARKLE"), Pat.many1 CharClass.digit,
   Pat.lit (S " /* XCRemoteSwiftPackageReference \"Sparkle\" */,\n")]

def rp2 : List Pat :=
  [Pat.lit (S "\t\t\t\t27SPARKLE"), Pat.many1 CharClass.digit,
   Pat.lit (S " /* Sparkle */,\n")]

def rp3 : List Pat :=
  [Pat.lit (S "\t\t\t\t27SPARKLE"), Pat.many1 CharClass.digit,
   Pat.lit (S " /* Sparkle in Frameworks */,\n")]

def rp4 : List Pat :=
  [Pat.lit (S "\t\t27SPARKLE"), Pat.many1 CharClass.digit,
   Pat.lit (S " /* Sparkle in Frameworks */ = \x7bisa = PBXBuildFile; productRef = 27SPARKLE"),
   Pat.many1 CharClass.digit, Pat.lit (S " /* Sparkle */; \x7d;\n")]

def rp5 : List Pat :=
  [Pat.lit (S "\t\t27SPARKLE"), Pat.many1 CharClass.digit,
   Pat.lit (S " /* XCRemoteSwiftPackageReference \"Sparkle\" */ = \x7b"),
   Pat.many1 CharClass.notBrace, Pat.lit (S "\x7d;\n")]

def rp6 : List Pat :=
  [Pat.lit (S "\t\t27SPARKLE"), Pat.many1 CharClass.digit,
   Pat.lit (S " /* Sparkle */ = \x7b"),
   Pat.many1 CharClass.notBrace, Pat.lit (S "\x7d;\n")]

/-- The first cleanup pattern of `add_sparkle` (line 63).  Note: it has two
leading tabs, although the packageReferences list entry it aims at is
written with four leading tabs (and `remove_sparkle`'s corresponding
pattern `rp1` uses four tabs). -/
def cp1 : List Pat :=
  [Pat.lit (S "\t\t27SPARKLE"), Pat.many1 CharClass.digit,
   Pat.lit (S " /* XCRemoteSwiftPackageReference \"Sparkle\" */,\n")]

/-! ## The six inserted entry texts of `add_sparkle` -/

def ins1 : List Char :=
  S "\t\t27SPARKLE00000000003 /* Sparkle in Frameworks */ = \x7bisa = PBXBuildFile; productRef = 27SPARKLE00000000002 /* Sparkle */; \x7d;\n"

def ins2 : List Char :=
  S "\t\t\t\t27SPARKLE00000000003 /* Sparkle in Frameworks */,\n"

def ins3 : List Char :=
  S "\t\t\t\t27SPARKLE00000000002 /* Sparkle */,\n"

def ins4 : List Char :=
  S "\t\t\t\t27SPARKLE00000000001 /* XCRemoteSwiftPackageReference \"Sparkle\" */,\n"

/-- `sparkle_ref`, the XCRemoteSwiftPackageReference block (note the nested
`requirement = { ... }` braces). -/
def ins5 : List Char :=
  S "\t\t27SPARKLE00000000001 /* XCRemoteSwiftPackageReference \"Sparkle\" */ = \x7b\n\t\t\tisa = XCRemoteSwiftPackageReference;\n\t\t\trepositoryURL = \"https://github.com/sparkle-project/Sparkle\";\n\t\t\trequirement = \x7b\n\t\t\t\tkind = exactVersion;\n\t\t\t\tversion = 2.8.1;\n\t\t\t\x7d;\n\t\t\x7d;\n"

/-- `sparkle_prod`, the XCSwiftPackageProductDependency block. -/
def ins6 : List Char :=
  S "\t\t27SPARKLE00000000002 /* Sparkle */ = \x7b\n\t\t\tisa = XCSwiftPackageProductDependency;\n\t\t\tpackage = 27SPARKLE00000000001 /* XCRemoteSwiftPackageReference \"Sparkle\" */;\n\t\t\tproductName = Sparkle;\n\t\t\x7d;\n"

/-! ## The six anchor patterns of `add_sparkle` -/

/-- Anchor 1, group 1: the Lottie PBXBuildFile line. -/
def lottieBuildLine : List Char :=
  S "\t\t275915892F132A9200D0E60D /* Lottie in Frameworks */ = \x7bisa = PBXBuildFile; productRef = 27AE10B12F10B1FC00E00DBC /* Lottie */; \x7d;\n"

/-- Anchor 1, group 2: the PBXBuildFile section end marker. -/
def endPBX : List Char := S "/* End PBXBuildFile section */"

def a1p1 : List Pat := [Pat.lit lottieBuildLine]
def a1p2 : List Pat := [Pat.lit endPBX]

/-- Anchor 2: the Lottie entry of the Frameworks build phase. -/
def lottieFwLine : List Char :=
  S "\t\t\t\t275915892F132A9200D0E60D /* Lottie in Frameworks */,\n"

def a2p1 : List Pat := [Pat.lit lottieFwLine]

/-- Anchor 3: head of the packageProductDependencies list with its Lottie
entry. -/
def ppdAnchor : List Char :=
  S "packageProductDependencies = (\n\t\t\t\t27AE10B12F10B1FC00E00DBC /* Lottie */,\n"

def a3p1 : List Pat := [Pat.lit ppdAnchor]

/-- Anchor 4: head of the packageReferences list with its Lottie entry. -/
def prAnchor : List Char :=
  S "packageReferences = (\n\t\t\t\t27AE10B02F10B1FC00E00DBC /* XCRemoteSwiftPackageReference \"lottie-spm\" */,\n"

def a4p1 : List Pat := [Pat.lit prAnchor]

/-- Anchor 5, literal part before the `[^;]+` wildcard (the Lottie
XCRemoteSwiftPackageReference block up to its `minimumVersion` value). -/
def lottieRefHead : List Char :=
  S "\t\t27AE10B02F10B1FC00E00DBC /* XCRemoteSwiftPackageReference \"lottie-spm\" */ = \x7b\n\t\t\tisa = XCRemoteSwiftPackageReference;\n\t\t\trepositoryURL = \"https://github.com/airbnb/lottie-spm.git\";\n\t\t\trequirement = \x7b\n\t\t\t\tkind = upToNextMajorVersion;\n\t\t\t\tminimumVersion = "

/-- Anchor 5, literal part after the wildcard. -/
def lottieRefTail : List Char := S ";\n\t\t\t\x7d;\n\t\t\x7d;\n"

def a5p1 : List Pat :=
  [Pat.lit lottieRefHead, Pat.many1 CharClass.notSemi, Pat.lit lottieRefTail]

/-- Fallback marker for insertion 5. -/
def endRefMarker : List Char := S "/* End XCRemoteSwiftPackageReference section */"

def a5fb : List Pat := [Pat.lit endRefMarker]

/-- Anchor 6: the Lottie XCSwiftPackageProductDependency block. -/
def lottieProdBlock : List Char :=
  S "\t\t27AE10B12F10B1FC00E00DBC /* Lottie */ = \x7b\n\t\t\tisa = XCSwiftPackageProductDependency;\n\t\t\tpackage = 27AE10B02F10B1FC00E00DBC /* XCRemoteSwiftPackageReference \"lottie-spm\" */;\n\t\t\tproductName = Lottie;\n\t\t\x7d;\n"

def a6p1 : List Pat := [Pat.lit lottieProdBlock]

/-- Fallback marker for insertion 6. -/
def endProdMarker : List Char := S "/* End XCSwiftPackageProductDependency section */"

def a6fb : List Pat := [Pat.lit endProdMarker]

/-! ## The operations of the script -/

/-- The messages the script prints to standard output, as abstract tags. -/
inductive Msg
  | removedRefs
  | alreadyConfigured
  | cleanupStart
  | cleanupDone
  | warnBuildFile
  | warnFrameworks
  | warnProdDeps
  | warnPkgRefs
  | warnRemoteRef
  | warnProdDep
  | addedRefs
  | usage
  | unknownAction
deriving DecidableEq, Repr

/-- File-access events (opening the file for reading / writing it). -/
inductive Ev
  | read
  | write
deriving DecidableEq, Repr

/-- The pure content transformation of `remove_sparkle` (lines 23-40): the
six deletion substitutions, in source order. -/
def removeContent (c : List Char) : List Char :=
  reSubDel rp6 (reSubDel rp5 (reSubDel rp4 (reSubDel rp3 (reSubDel rp2 (reSubDel rp1 c)))))

/-- The pure content transformation of the partial-state cleanup inside
`add_sparkle` (lines 63-70): its own six deletion substitutions.  Patterns
two to six coincide textually with `rp2`-`rp6`; the first one is `cp1`
(two leading tabs, unlike `rp1`). -/
def cleanupContent (c : List Char) : List Char :=
  reSubDel rp6 (reSubDel rp5 (reSubDel rp4 (reSubDel rp3 (reSubDel rp2 (reSubDel cp1 c)))))

/-- The fully-configured test of `add_sparkle` (line 56):
`content.count('Sparkle') >= 9` and the primary marker is present. -/
def fullyConfigured (c : List Char) : Bool :=
  decide (9 ≤ countOcc sparkleName c) && containsSub markerFull c

/-- Insertion 1 (lines 80-85): PBXBuildFile entry after the Lottie line,
before the section end marker; warn and skip if the anchor is absent. -/
def step1 (c : List Char) : List Char × List Msg :=
  if hasMatch2 a1p1 a1p2 c then (reSubIns a1p1 a1p2 ins1 c, [])
  else (c, [Msg.warnBuildFile])

/-- Insertion 2 (lines 87-93): Frameworks build-phase entry. -/
def step2 (c : List Char) : List Char × List Msg :=
  if hasMatch2 a2p1 [] c then (reSubIns a2p1 [] ins2 c, [])
  else (c, [Msg.warnFrameworks])

/-- Insertion 3 (lines 95-101): packageProductDependencies entry. -/
def step3 (c : List Char) : List Char × List Msg :=
  if hasMatch2 a3p1 [] c then (reSubIns a3p1 [] ins3 c, [])
  else (c, [Msg.warnProdDeps])

/-- Insertion 4 (lines 103-109): packageReferences entry. -/
def step4 (c : List Char) : List Char × List Msg :=
  if hasMatch2 a4p1 [] c then (reSubIns a4p1 [] ins4 c, [])
  else (c, [Msg.warnPkgRefs])

/-- Insertion 5 (lines 111-131): XCRemoteSwiftPackageReference block after
the Lottie block; on a missing anchor, warn and fall back to inserting just
before the section end marker. -/
def step5 (c : List Char) : List Char × List Msg :=
  if hasMatch2 a5p1 [] c then (reSubIns a5p1 [] ins5 c, [])
  else (reSubIns [] a5fb ins5 c, [Msg.warnRemoteRef])

/-- Insertion 6 (lines 133-150): XCSwiftPackageProductDependency block,
with the analogous fallback. -/
def step6 (c : List Char) : List Char × List Msg :=
  if hasMatch2 a6p1 [] c then (reSubIns a6p1 [] ins6 c, [])
  else (reSubIns [] a6fb ins6 c, [Msg.warnProdDep])

/-- The six insertions in source order, collecting warnings. -/
def runSteps (c : List Char) : List Char × List Msg :=
  let r1 := step1 c
  let r2 := step2 r1.1
  let r3 := step3 r2.1
  let r4 := step4 r3.1
  let r5 := step5 r4.1
  let r6 := step6 r5.1
  (r6.1, r1.2 ++ r2.2 ++ r3.2 ++ r4.2 ++ r5.2 ++ r6.2)

/-- Result of one operation: final file content, the contents written to
the file (in order), printed messages, file-access events, and the boolean
the Python function returns. -/
structure OpResult where
  content : List Char
  writes : List (List Char)
  out : List Msg
  events : List Ev
  success : Bool
deriving DecidableEq, Repr

/-- `remove_sparkle` (lines 17-46): one read, the six deletions, one
write, a success message, `return True`. -/
def remove_sparkle (c : List Char) : OpResult :=
  { content := removeContent c
    writes := [removeContent c]
    out := [Msg.removedRefs]
    events := [Ev.read, Ev.write]
    success := true }

/-- `add_sparkle` (lines 49-156).  The argument is the file content the
initial read returns.  If the fully-configured test passes the function
returns without writing; otherwise, if `'Sparkle'` occurs, the partial
cleanup runs first (write + re-read), and then the six insertions run and
the result is written. -/
def add_sparkle (c : List Char) : OpResult :=
  if fullyConfigured c then
    { content := c, writes := [], out := [Msg.alreadyConfigured],
      events := [Ev.read], success := true }
  else if containsSub sparkleName c then
    let cc := cleanupContent c
    let r := runSteps cc
    { content := r.1
      writes := [cc, r.1]
      out := [Msg.cleanupStart, Msg.cleanupDone] ++ r.2 ++ [Msg.addedRefs]
      events := [Ev.read, Ev.write, Ev.read, Ev.write]
      success := true }
  else
    let r := runSteps c
    { content := r.1
      writes := [r.1]
      out := r.2 ++ [Msg.addedRefs]
      events := [Ev.read, Ev.write]
      success := true }

/-- Final content produced by `add` on a file read as `c`. -/
def addContent (c : List Char) : List Char := (add_sparkle c).content

/-- Result of one process run: exit code, whether the descriptor file was
opened at all, contents written, stdout tags, stderr message. -/
structure MainResult where
  exit : Nat
  opened : Bool
  writes : List (List Char)
  out : List Msg
  errOut : Option String
deriving DecidableEq, Repr

/-- The `__main__` dispatcher (lines 159-179).  `argv` includes the script
name, as `sys.argv` does.  The second argument models the outcome of
opening and reading the descriptor file, the script's only modelled
exception source; `Except.error e` plays the role of an exception with
message `e`, caught by the `try`/`except` block. -/
def mainRun (argv : List String) (file : Except String (List Char)) : MainResult :=
  match argv with
  | [_, action, _] =>
    if action = "add" then
      match file with
      | Except.error e =>
        { exit := 1, opened := true, writes := [], out := [], errOut := some e }
      | Except.ok c =>
        let r := add_sparkle c
        { exit := if r.success then 0 else 1, opened := true,
          writes := r.writes, out := r.out, errOut := none }
    else if action = "remove" then
      match file with
      | Except.error e =>
        { exit := 1, opened := true, writes := [], out := [], errOut := some e }
      | Except.ok c =>
        let r := remove_sparkle c
        { exit := if r.success then 0 else 1, opened := true,
          writes := r.writes, out := r.out, errOut := none }
    else
      { exit := 1, opened := false, writes := [], out := [Msg.unknownAction], errOut := none }
  | _ =>
    { exit := 1, opened := false, writes := [], out := [Msg.usage], errOut := none }

/-! ## A standard pristine descriptor file

A minimal `project.pbxproj` with the standard single-target layout: every
anchor text occurs exactly once, in section order, and the managed
dependency's name and reserved identifier prefix occur nowhere. -/

def pSeg0 : List Char := S "// !$*UTF8*$!\n/* Begin PBXBuildFile section */\n"

def pSeg1 : List Char :=
  S "\n\n/* Begin PBXFrameworksBuildPhase section */\n\t\t27590BB02F10AAAA00E00DBC /* Frameworks */ = \x7b\n\t\t\tfiles = (\n"

def pSeg2 : List Char :=
  S "\t\t\t);\n\t\t\x7d;\n/* End PBXFrameworksBuildPhase section */\n\n\t\t\t"

def pSeg3 : List Char := S "\t\t\t);\n\t\t\t"

def pSeg4 : List Char :=
  S "\t\t\t);\n\n/* Begin XCRemoteSwiftPackageReference section */\n"

def pSeg5 : List Char :=
  S "\n\n/* Begin XCSwiftPackageProductDependency section */\n"

def pSeg6 : List Char := S "\n"

/-- The Lottie XCRemoteSwiftPackageReference block as it stands in the
file, with minimum version 4.5.0. -/
def lottieRefBlock : List Char := lottieRefHead ++ S "4.5.0" ++ lottieRefTail

/-- The pristine descriptor file. -/
def pristineP : List Char :=
  pSeg0 ++ lottieBuildLine ++ endPBX ++ pSeg1 ++ lottieFwLine ++ pSeg2 ++
  ppdAnchor ++ pSeg3 ++ prAnchor ++ pSeg4 ++ lottieRefBlock ++ endRefMarker ++
  pSeg5 ++ lottieProdBlock ++ endProdMarker ++ pSeg6

/-- The file `add` produces from `pristineP`: each of the six locations
carries exactly one entry for the managed dependency. -/
def addedP : List Char :=
  pSeg0 ++ lottieBuildLine ++ ins1 ++ endPBX ++ pSeg1 ++ lottieFwLine ++ ins2 ++ pSeg2 ++
  ppdAnchor ++ ins3 ++ pSeg3 ++ prAnchor ++ ins4 ++ pSeg4 ++ lottieRefBlock ++ ins5 ++
  endRefMarker ++ pSeg5 ++ lottieProdBlock ++ ins6 ++ endProdMarker ++ pSeg6

/-- The dangling fragment of the XCRemoteSwiftPackageReference block that
`remove`'s `\{[^}]+\};` pattern leaves behind: the pattern stops at the
first `}` (the one closing the nested `requirement` sub-block). -/
def residue : List Char := S "\t\t\x7d;\n"

/-- What `remove` actually produces from `addedP`: the original file plus
the dangling `\t\t};` line. -/
def roundtripP : List Char :=
  pSeg0 ++ lottieBuildLine ++ endPBX ++ pSeg1 ++ lottieFwLine ++ pSeg2 ++
  ppdAnchor ++ pSeg3 ++ prAnchor ++ pSeg4 ++ lottieRefBlock ++ residue ++ endRefMarker ++
  pSeg5 ++ lottieProdBlock ++ endProdMarker ++ pSeg6

/-- `pristineP` with only location 4 (the packageReferences list entry)
populated: a partial state left by an interrupted prior `add` run. -/
def partialP4 : List Char :=
  pSeg0 ++ lottieBuildLine ++ endPBX ++ pSeg1 ++ lottieFwLine ++ pSeg2 ++
  ppdAnchor ++ pSeg3 ++ prAnchor ++ ins4 ++ pSeg4 ++ lottieRefBlock ++ endRefMarker ++
  pSeg5 ++ lottieProdBlock ++ endProdMarker ++ pSeg6

/-- What `add` actually produces from `partialP4`: the cleanup pattern
(line 63, two tabs) eats the four-tab entry from its third character on,
stranding two tab characters that then survive the fresh insertion. -/
def addedP4 : List Char :=
  pSeg0 ++ lottieBuildLine ++ ins1 ++ endPBX ++ pSeg1 ++ lottieFwLine ++ ins2 ++ pSeg2 ++
  ppdAnchor ++ ins3 ++ pSeg3 ++ prAnchor ++ ins4 ++ S "\t\t" ++ pSeg4 ++ lottieRefBlock ++ ins5 ++
  endRefMarker ++ pSeg5 ++ lottieProdBlock ++ ins6 ++ endProdMarker ++ pSeg6


/-! ## Scanners used to state side conditions

`hasMatch1`/`noMatchBefore1` are the single-pattern analogues of
`hasMatch2`/`noMatchBefore2`; `noMatchBefore p1 p2 pre t` says the
two-group pattern matches at none of the positions lying in `pre` when the
scanned string is `pre ++ t` (a match attempted inside `pre` may run on
into `t`). -/

def hasMatch1 (p : List Pat) : List Char → Bool
  | [] => (matchLen p []).isSome
  | c :: cs => (matchLen p (c :: cs)).isSome || hasMatch1 p cs

def noMatchBefore1 (p : List Pat) : List Char → List Char → Bool
  | [], _ => true
  | c :: cs, t => !(matchLen p (c :: (cs ++ t))).isSome && noMatchBefore1 p cs t

def noMatchBefore2 (p1 p2 : List Pat) : List Char → List Char → Bool
  | [], _ => true
  | c :: cs, t => !(matchLen2 p1 p2 (c :: (cs ++ t))).isSome && noMatchBefore2 p1 p2 cs t

/-- No character of `mid` occurs in `n`. -/
def disjointChars (mid n : List Char) : Bool :=
  mid.all (fun ch => !(n.contains ch))

/-- `Inserted ins c r`: `r` is obtained from `c` purely by inserting copies
of `ins` at some positions — no character of `c` is deleted, altered or
reordered. -/
inductive Inserted (ins : List Char) : List Char → List Char → Prop
  | nil : Inserted ins [] []
  | keep (x : Char) {c r : List Char} : Inserted ins c r → Inserted ins (x :: c) (x :: r)
  | put {c r : List Char} : Inserted ins c r → Inserted ins c (ins ++ r)

/-- `add` on a Sparkle-free file only ever inserts the six fixed entry
texts, in insertion order. -/
def AddOnlyInserts (c r : List Char) : Prop :=
  ∃ r1 r2 r3 r4 r5,
    Inserted ins1 c r1 ∧ Inserted ins2 r1 r2 ∧ Inserted ins3 r2 r3 ∧
    Inserted ins4 r3 r4 ∧ Inserted ins5 r4 r5 ∧ Inserted ins6 r5 r

/-! ## Intermediate stages of the concrete runs

One definition per substitution pass, so that each pass can be checked by
a single kernel evaluation. -/

/-- `pristineP` after insertion 1. -/
def pA1 : List Char :=
  pSeg0 ++ lottieBuildLine ++ ins1 ++ endPBX ++ pSeg1 ++ lottieFwLine ++ pSeg2 ++
  ppdAnchor ++ pSeg3 ++ prAnchor ++ pSeg4 ++ lottieRefBlock ++ endRefMarker ++
  pSeg5 ++ lottieProdBlock ++ endProdMarker ++ pSeg6

/-- ... after insertions 1-2. -/
def pA2 : List Char :=
  pSeg0 ++ lottieBuildLine ++ ins1 ++ endPBX ++ pSeg1 ++ lottieFwLine ++ ins2 ++ pSeg2 ++
  ppdAnchor ++ pSeg3 ++ prAnchor ++ pSeg4 ++ lottieRefBlock ++ endRefMarker ++
  pSeg5 ++ lottieProdBlock ++ endProdMarker ++ pSeg6

/-- ... after insertions 1-3. -/
def pA3 : List Char :=
  pSeg0 ++ lottieBuildLine ++ ins1 ++ endPBX ++ pSeg1 ++ lottieFwLine ++ ins2 ++ pSeg2 ++
  ppdAnchor ++ ins3 ++ pSeg3 ++ prAnchor ++ pSeg4 ++ lottieRefBlock ++ endRefMarker ++
  pSeg5 ++ lottieProdBlock ++ endProdMarker ++ pSeg6

/-- ... after insertions 1-4. -/
def pA4 : List Char :=
  pSeg0 ++ lottieBuildLine ++ ins1 ++ endPBX ++ pSeg1 ++ lottieFwLine ++ ins2 ++ pSeg2 ++
  ppdAnchor ++ ins3 ++ pSeg3 ++ prAnchor ++ ins4 ++ pSeg4 ++ lottieRefBlock ++ endRefMarker ++
  pSeg5 ++ lottieProdBlock ++ endProdMarker ++ pSeg6

/-- ... after insertions 1-5. -/
def pA5 : List Char :=
  pSeg0 ++ lottieBuildLine ++ ins1 ++ endPBX ++ pSeg1 ++ lottieFwLine ++ ins2 ++ pSeg2 ++
  ppdAnchor ++ ins3 ++ pSeg3 ++ prAnchor ++ ins4 ++ pSeg4 ++ lottieRefBlock ++ ins5 ++
  endRefMarker ++ pSeg5 ++ lottieProdBlock ++ endProdMarker ++ pSeg6

/-- `addedP` after removal pattern 1 (which deletes the packageReferences
entry `ins4`). -/
def rB1 : List Char :=
  pSeg0 ++ lottieBuildLine ++ ins1 ++ endPBX ++ pSeg1 ++ lottieFwLine ++ ins2 ++ pSeg2 ++
  ppdAnchor ++ ins3 ++ pSeg3 ++ prAnchor ++ pSeg4 ++ lottieRefBlock ++ ins5 ++
  endRefMarker ++ pSeg5 ++ lottieProdBlock ++ ins6 ++ endProdMarker ++ pSeg6

/-- ... after removal patterns 1-2 (also deletes `ins3`). -/
def rB2 : List Char :=
  pSeg0 ++ lottieBuildLine ++ ins1 ++ endPBX ++ pSeg1 ++ lottieFwLine ++ ins2 ++ pSeg2 ++
  ppdAnchor ++ pSeg3 ++ prAnchor ++ pSeg4 ++ lottieRefBlock ++ ins5 ++
  endRefMarker ++ pSeg5 ++ lottieProdBlock ++ ins6 ++ endProdMarker ++ pSeg6

/-- ... after removal patterns 1-3 (also deletes `ins2`). -/
def rB3 : List Char :=
  pSeg0 ++ lottieBuildLine ++ ins1 ++ endPBX ++ pSeg1 ++ lottieFwLine ++ pSeg2 ++
  ppdAnchor ++ pSeg3 ++ prAnchor ++ pSeg4 ++ lottieRefBlock ++ ins5 ++
  endRefMarker ++ pSeg5 ++ lottieProdBlock ++ ins6 ++ endProdMarker ++ pSeg6

/-- ... after removal patterns 1-4 (also deletes `ins1`). -/
def rB4 : List Char :=
  pSeg0 ++ lottieBuildLine ++ endPBX ++ pSeg1 ++ lottieFwLine ++ pSeg2 ++
  ppdAnchor ++ pSeg3 ++ prAnchor ++ pSeg4 ++ lottieRefBlock ++ ins5 ++
  endRefMarker ++ pSeg5 ++ lottieProdBlock ++ ins6 ++ endProdMarker ++ pSeg6

/-- ... after removal patterns 1-5: pattern 5 truncates `ins5` to the
dangling `residue` instead of deleting it whole. -/
def rB5 : List Char :=
  pSeg0 ++ lottieBuildLine ++ endPBX ++ pSeg1 ++ lottieFwLine ++ pSeg2 ++
  ppdAnchor ++ pSeg3 ++ prAnchor ++ pSeg4 ++ lottieRefBlock ++ residue ++
  endRefMarker ++ pSeg5 ++ lottieProdBlock ++ ins6 ++ endProdMarker ++ pSeg6

/-- `partialP4` after the cleanup of `add_sparkle`: the two-tab pattern
`cp1` deletes the four-tab entry `ins4` from its third character on,
stranding two tabs. -/
def cC1 : List Char :=
  pSeg0 ++ lottieBuildLine ++ endPBX ++ pSeg1 ++ lottieFwLine ++ pSeg2 ++
  ppdAnchor ++ pSeg3 ++ prAnchor ++ S "\t\t" ++ pSeg4 ++ lottieRefBlock ++ endRefMarker ++
  pSeg5 ++ lottieProdBlock ++ endProdMarker ++ pSeg6

/-- `cC1` after insertion 1. -/
def cC2 : List Char :=
  pSeg0 ++ lottieBuildLine ++ ins1 ++ endPBX ++ pSeg1 ++ lottieFwLine ++ pSeg2 ++
  ppdAnchor ++ pSeg3 ++ prAnchor ++ S "\t\t" ++ pSeg4 ++ lottieRefBlock ++ endRefMarker ++
  pSeg5 ++ lottieProdBlock ++ endProdMarker ++ pSeg6

/-- ... after insertions 1-2. -/
def cC3 : List Char :=
  pSeg0 ++ lottieBuildLine ++ ins1 ++ endPBX ++ pSeg1 ++ lottieFwLine ++ ins2 ++ pSeg2 ++
  ppdAnchor ++ pSeg3 ++ prAnchor ++ S "\t\t" ++ pSeg4 ++ lottieRefBlock ++ endRefMarker ++
  pSeg5 ++ lottieProdBlock ++ endProdMarker ++ pSeg6

/-- ... after insertions 1-3. -/
def cC4 : List Char :=
  pSeg0 ++ lottieBuildLine ++ ins1 ++ endPBX ++ pSeg1 ++ lottieFwLine ++ ins2 ++ pSeg2 ++
  ppdAnchor ++ ins3 ++ pSeg3 ++ prAnchor ++ S "\t\t" ++ pSeg4 ++ lottieRefBlock ++ endRefMarker ++
  pSeg5 ++ lottieProdBlock ++ endProdMarker ++ pSeg6

/-- ... after insertions 1-4. -/
def cC5 : List Char :=
  pSeg0 ++ lottieBuildLine ++ ins1 ++ endPBX ++ pSeg1 ++ lottieFwLine ++ ins2 ++ pSeg2 ++
  ppdAnchor ++ ins3 ++ pSeg3 ++ prAnchor ++ ins4 ++ S "\t\t" ++ pSeg4 ++ lottieRefBlock ++ endRefMarker ++
  pSeg5 ++ lottieProdBlock ++ endProdMarker ++ pSeg6

/-- ... after insertions 1-5. -/
def cC6 : List Char :=
  pSeg0 ++ lottieBuildLine ++ ins1 ++ endPBX ++ pSeg1 ++ lottieFwLine ++ ins2 ++ pSeg2 ++
  ppdAnchor ++ ins3 ++ pSeg3 ++ prAnchor ++ ins4 ++ S "\t\t" ++ pSeg4 ++ lottieRefBlock ++ ins5 ++
  endRefMarker ++ pSeg5 ++ lottieProdBlock ++ endProdMarker ++ pSeg6

/-- A descriptor file that contains all anchors but also stray text that
fools the fully-configured test: at least nine occurrences of the name and
the primary marker, with no actual entry at any of the six locations. -/
def paddedP : List Char :=
  pristineP ++
  S "\n// note: Sparkle Sparkle Sparkle Sparkle Sparkle Sparkle Sparkle Sparkle pending\n// 27SPARKLE00000000001 /* XCRemoteSwiftPackageReference \"Sparkle\" */ = pending\n"

/-- A line belonging to some other dependency. -/
def otherDepLine : List Char := S "\t\t99OTHERDEP0000000001 /* SomeOtherLib */,\n"

/-- A descriptor fragment with a malformed managed block (its closing brace
is missing) followed by another dependency's line: removal pattern 5 eats
the other dependency's line. -/
def isoBad : List Char :=
  S "\t\t27SPARKLE1 /* XCRemoteSwiftPackageReference \"Sparkle\" */ = \x7b\n" ++
  otherDepLine ++ S "\t\t\t\x7d;\n" ++ S "tail\n"

/-! ## Decomposition of the partially removed block

Removal pattern 5 matches `ins5` only up to the first `}` — the one that
closes the nested `requirement` sub-block — plus the following `};` and
newline; the final two-tab `};` line survives. -/

/-- The literal head of removal patterns 4-6 and of the cleanup. -/
def tab2key : List Char := S "\t\t27SPARKLE"

/-- The literal head of removal patterns 1-3. -/
def tab4key : List Char := S "\t\t\t\t27SPARKLE"

/-- The run of non-`}` characters inside `ins5` after its opening brace. -/
def ins5inner : List Char :=
  S "\n\t\t\tisa = XCRemoteSwiftPackageReference;\n\t\t\trepositoryURL = \"https://github.com/sparkle-project/Sparkle\";\n\t\t\trequirement = \x7b\n\t\t\t\tkind = exactVersion;\n\t\t\t\tversion = 2.8.1;\n\t\t\t"

/-- The part of `ins5` that removal pattern 5 actually matches. -/
def ins5match : List Char :=
  tab2key ++ S "00000000001" ++
  S " /* XCRemoteSwiftPackageReference \"Sparkle\" */ = \x7b" ++
  ins5inner ++ S "\x7d;\n"

/-! ## The standard-layout family

`famP g0 … g6` ranges over descriptor files with the standard
single-target layout: the six anchor texts in section order, with
arbitrary surrounding content `g0 … g6`. -/

def famP (g0 g1 g2 g3 g4 g5 g6 : List Char) : List Char :=
  g0 ++ lottieBuildLine ++ endPBX ++ g1 ++ lottieFwLine ++ g2 ++ ppdAnchor ++ g3 ++
  prAnchor ++ g4 ++ lottieRefBlock ++ endRefMarker ++ g5 ++ lottieProdBlock ++
  endProdMarker ++ g6

/-- The member of the family with exactly one managed entry at each of the
six locations, every entry referencing the fixed reserved identifiers. -/
def famAdded (g0 g1 g2 g3 g4 g5 g6 : List Char) : List Char :=
  g0 ++ lottieBuildLine ++ ins1 ++ endPBX ++ g1 ++ lottieFwLine ++ ins2 ++ g2 ++
  ppdAnchor ++ ins3 ++ g3 ++ prAnchor ++ ins4 ++ g4 ++ lottieRefBlock ++ ins5 ++
  endRefMarker ++ g5 ++ lottieProdBlock ++ ins6 ++ endProdMarker ++ g6

/-- The member of the family left by `remove` after `add`: the original
plus the dangling `residue` line. -/
def famRound (g0 g1 g2 g3 g4 g5 g6 : List Char) : List Char :=
  g0 ++ lottieBuildLine ++ endPBX ++ g1 ++ lottieFwLine ++ g2 ++ ppdAnchor ++ g3 ++
  prAnchor ++ g4 ++ lottieRefBlock ++ residue ++ endRefMarker ++ g5 ++ lottieProdBlock ++
  endProdMarker ++ g6



/-- The run of non-`}` characters inside `ins6` after its opening brace
(here the first `}` is the block's own closing brace, so pattern 6 removes
the whole block). -/
def ins6inner : List Char :=
  S "\n\t\t\tisa = XCSwiftPackageProductDependency;\n\t\t\tpackage = 27SPARKLE00000000001 /* XCRemoteSwiftPackageReference \"Sparkle\" */;\n\t\t\tproductName = Sparkle;\n\t\t"

/-! ## Generic lemmas about the matching combinators -/

theorem isPrefixOf_append_self (l r : List Char) : l.isPrefixOf (l ++ r) = true := by
  simp [List.isPrefixOf_iff_prefix]

theorem isPrefixOf_length_le {l s : List Char} (h : l.isPrefixOf s = true) :
    l.length ≤ s.length := by
  rw [List.isPrefixOf_iff_prefix] at h
  exact h.length_le

theorem countWhile_le (cc : CharClass) (s : List Char) : countWhile cc s ≤ s.length := by
  induction s with
  | nil => simp [countWhile]
  | cons a as ih =>
    simp only [countWhile]
    by_cases hc : charIn cc a
    · rw [if_pos hc]; simpa using ih
    · rw [if_neg hc]; simp

theorem matchLen_le (p : List Pat) (s : List Char) (n : Nat) :
    matchLen p s = some n → n ≤ s.length := by
  induction p generalizing s n with
  | nil => intro h; simp [matchLen] at h; omega
  | cons hd tl ih =>
    cases hd with
    | lit l =>
      intro h
      simp only [matchLen] at h
      by_cases hp : l.isPrefixOf s
      · rw [if_pos hp] at h
        cases he : matchLen tl (List.drop l.length s) with
        | none => rw [he] at h; simp at h
        | some k =>
          rw [he] at h
          simp at h
          have hk := ih _ _ he
          have h1 := isPrefixOf_length_le hp
          have h2 := List.length_drop l.length s
          omega
      · rw [if_neg hp] at h; simp at h
    | many1 cc =>
      intro h
      simp only [matchLen] at h
      by_cases hz : countWhile cc s = 0
      · rw [if_pos hz] at h; simp at h
      · rw [if_neg hz] at h
        cases he : matchLen tl (List.drop (countWhile cc s) s) with
        | none => rw [he] at h; simp at h
        | some k =>
          rw [he] at h
          simp at h
          have hk := ih _ _ he
          have h1 := countWhile_le cc s
          have h2 := List.length_drop (countWhile cc s) s
          omega

theorem reSubDelS_skip1 (p : List Pat) (c : Char) (cs : List Char) (k : Nat) :
    reSubDelS p (c :: cs) (k + 1) = reSubDelS p cs k := rfl

theorem reSubDelS_zero_none {p : List Pat} {c : Char} {cs : List Char}
    (h : matchLen p (c :: cs) = none) :
    reSubDelS p (c :: cs) 0 = c :: reSubDelS p cs 0 := by
  simp [reSubDelS, h]

theorem reSubDelS_zero_some {p : List Pat} {c : Char} {cs : List Char} {n : Nat}
    (h : matchLen p (c :: cs) = some (n + 1)) :
    reSubDelS p (c :: cs) 0 = reSubDelS p cs n := by
  simp [reSubDelS, h]

theorem reSubInsS_skip1 (p1 p2 : List Pat) (ins : List Char) (c : Char) (cs : List Char)
    (k : Nat) : reSubInsS p1 p2 ins (c :: cs) (k + 1) = reSubInsS p1 p2 ins cs k := rfl

theorem reSubInsS_zero_none {p1 p2 : List Pat} {ins : List Char} {c : Char} {cs : List Char}
    (h : matchLen2 p1 p2 (c :: cs) = none) :
    reSubInsS p1 p2 ins (c :: cs) 0 = c :: reSubInsS p1 p2 ins cs 0 := by
  simp [reSubInsS, h]

theorem reSubInsS_zero_some {p1 p2 : List Pat} {ins : List Char} {c : Char} {cs : List Char}
    {n1 n2 : Nat} (h : matchLen2 p1 p2 (c :: cs) = some (n1, n2)) (hpos : n1 + n2 ≠ 0) :
    reSubInsS p1 p2 ins (c :: cs) 0 =
      List.take n1 (c :: cs) ++ ins ++ List.take n2 (List.drop n1 (c :: cs))
        ++ reSubInsS p1 p2 ins cs (n1 + n2 - 1) := by
  simp [reSubInsS, h, hpos]

theorem hasMatch1_cons_false {p : List Pat} {c : Char} {cs : List Char}
    (h : hasMatch1 p (c :: cs) = false) :
    matchLen p (c :: cs) = none ∧ hasMatch1 p cs = false := by
  simp only [hasMatch1, Bool.or_eq_false_iff] at h
  exact ⟨Option.not_isSome_iff_eq_none.mp (by simp [h.1]), h.2⟩

theorem hasMatch2_cons_false {p1 p2 : List Pat} {c : Char} {cs : List Char}
    (h : hasMatch2 p1 p2 (c :: cs) = false) :
    matchLen2 p1 p2 (c :: cs) = none ∧ hasMatch2 p1 p2 cs = false := by
  simp only [hasMatch2, Bool.or_eq_false_iff] at h
  exact ⟨Option.not_isSome_iff_eq_none.mp (by simp [h.1]), h.2⟩

theorem reSubDelS_nomatch (p : List Pat) :
    ∀ s : List Char, hasMatch1 p s = false → reSubDelS p s 0 = s := by
  intro s
  induction s with
  | nil => intro _; rfl
  | cons c cs ih =>
    intro hs
    obtain ⟨h1, h2⟩ := hasMatch1_cons_false hs
    rw [reSubDelS_zero_none h1, ih h2]

theorem reSubInsS_nomatch (p1 p2 : List Pat) (ins : List Char) :
    ∀ s : List Char, hasMatch2 p1 p2 s = false → reSubInsS p1 p2 ins s 0 = s := by
  intro s
  induction s with
  | nil => intro _; rfl
  | cons c cs ih =>
    intro hs
    obtain ⟨h1, h2⟩ := hasMatch2_cons_false hs
    rw [reSubInsS_zero_none h1, ih h2]

theorem matchLen2_parts {p1 p2 : List Pat} {s : List Char} {n1 n2 : Nat}
    (h : matchLen2 p1 p2 s = some (n1, n2)) :
    matchLen p1 s = some n1 ∧ matchLen p2 (List.drop n1 s) = some n2 := by
  unfold matchLen2 at h
  rcases h1 : matchLen p1 s with _ | k1
  · rw [h1] at h; simp at h
  · rw [h1] at h
    simp only [Option.some_bind] at h
    rcases h2 : matchLen p2 (List.drop k1 s) with _ | k2
    · rw [h2] at h; simp at h
    · rw [h2] at h
      simp only [Option.map_some, Option.map_some', Option.some.injEq, Prod.mk.injEq] at h
      obtain ⟨rfl, rfl⟩ := h
      exact ⟨rfl, h2⟩

theorem matchLen2_intro {p1 p2 : List Pat} {s : List Char} {n1 n2 : Nat}
    (h1 : matchLen p1 s = some n1) (h2 : matchLen p2 (List.drop n1 s) = some n2) :
    matchLen2 p1 p2 s = some (n1, n2) := by
  unfold matchLen2
  rw [h1, Option.some_bind, h2, Option.map_some']

/-- Being in skip state `k` is the same as restarting after `k` characters
(which were already accounted for). -/
theorem reSubDelS_state_drop (p : List Pat) :
    ∀ (cs : List Char) (k : Nat), reSubDelS p cs k = reSubDelS p (List.drop k cs) 0 := by
  intro cs
  induction cs with
  | nil => intro k; rw [List.drop_nil]; cases k <;> rfl
  | cons c cs ih =>
    intro k
    cases k with
    | zero => rfl
    | succ k => rw [reSubDelS_skip1, List.drop_succ_cons, ih k]

theorem reSubInsS_state_drop (p1 p2 : List Pat) (ins : List Char) :
    ∀ (cs : List Char) (k : Nat), reSubInsS p1 p2 ins cs k = reSubInsS p1 p2 ins (List.drop k cs) 0 := by
  intro cs
  induction cs with
  | nil => intro k; rw [List.drop_nil]; cases k <;> rfl
  | cons c cs ih =>
    intro k
    cases k with
    | zero => rfl
    | succ k => rw [reSubInsS_skip1, List.drop_succ_cons, ih k]

theorem reSubDelS_preskip (p : List Pat) :
    ∀ (pre t : List Char), noMatchBefore1 p pre t = true →
      reSubDelS p (pre ++ t) 0 = pre ++ reSubDelS p t 0 := by
  intro pre
  induction pre with
  | nil => intro t _; simp
  | cons c cs ih =>
    intro t hn
    simp only [noMatchBefore1, Bool.and_eq_true] at hn
    have h1 : matchLen p (c :: (cs ++ t)) = none := by
      rcases hM : matchLen p (c :: (cs ++ t)) with _ | k
      · rfl
      · rw [hM] at hn; simp at hn
    rw [List.cons_append, reSubDelS_zero_none h1, ih t hn.2, List.cons_append]

theorem reSubInsS_preskip (p1 p2 : List Pat) (ins : List Char) :
    ∀ (pre t : List Char), noMatchBefore2 p1 p2 pre t = true →
      reSubInsS p1 p2 ins (pre ++ t) 0 = pre ++ reSubInsS p1 p2 ins t 0 := by
  intro pre
  induction pre with
  | nil => intro t _; simp
  | cons c cs ih =>
    intro t hn
    simp only [noMatchBefore2, Bool.and_eq_true] at hn
    have h1 : matchLen2 p1 p2 (c :: (cs ++ t)) = none := by
      rcases hM : matchLen2 p1 p2 (c :: (cs ++ t)) with _ | k
      · rfl
      · rw [hM] at hn; simp at hn
    rw [List.cons_append, reSubInsS_zero_none h1, ih t hn.2, List.cons_append]

/-- Master lemma for one deletion pass: if the pattern matches nowhere in
`pre`, matches exactly `m` at the seam, and matches nowhere in `post`,
then the pass deletes exactly `m`. -/
theorem reSubDel_single (p : List Pat) (pre m post : List Char)
    (hpre : noMatchBefore1 p pre (m ++ post) = true)
    (hm : matchLen p (m ++ post) = some m.length)
    (hpos : 0 < m.length)
    (hpost : hasMatch1 p post = false) :
    reSubDel p (pre ++ (m ++ post)) = pre ++ post := by
  unfold reSubDel
  rw [reSubDelS_preskip p pre _ hpre]
  congr 1
  obtain ⟨c, m', rfl⟩ : ∃ c m', m = c :: m' := by
    cases m with
    | nil => simp at hpos
    | cons x xs => exact ⟨x, xs, rfl⟩
  have hm2 : matchLen p (c :: (m' ++ post)) = some (m'.length + 1) := by
    rw [← List.cons_append]
    simpa using hm
  rw [List.cons_append, reSubDelS_zero_some hm2, reSubDelS_state_drop, List.drop_left]
  exact reSubDelS_nomatch p post hpost

/-- Master lemma for one insertion pass: if the two-group pattern matches
nowhere in `pre`, its groups match exactly `m1` and `m2` at the seam, and
it matches nowhere in `post`, then the pass inserts exactly one copy of
`ins` between `m1` and `m2`. -/
theorem reSubIns_single (p1 p2 : List Pat) (ins pre m1 m2 post : List Char)
    (hpre : noMatchBefore2 p1 p2 pre (m1 ++ (m2 ++ post)) = true)
    (hm1 : matchLen p1 (m1 ++ (m2 ++ post)) = some m1.length)
    (hm2 : matchLen p2 (m2 ++ post) = some m2.length)
    (hpos : 0 < m1.length + m2.length)
    (hpost : hasMatch2 p1 p2 post = false) :
    reSubIns p1 p2 ins (pre ++ (m1 ++ (m2 ++ post))) = pre ++ (m1 ++ (ins ++ (m2 ++ post))) := by
  unfold reSubIns
  rw [reSubInsS_preskip p1 p2 ins pre _ hpre]
  congr 1
  have hM2 : matchLen2 p1 p2 (m1 ++ (m2 ++ post)) = some (m1.length, m2.length) :=
    matchLen2_intro hm1 (by rw [List.drop_left]; exact hm2)
  have hW : m1 ++ (m2 ++ post) = (m1 ++ m2) ++ post := by rw [List.append_assoc]
  obtain ⟨c, w, hw⟩ : ∃ c w, m1 ++ m2 = c :: w := by
    cases hE : m1 ++ m2 with
    | nil =>
      obtain ⟨e1, e2⟩ := List.append_eq_nil.mp hE
      rw [e1, e2] at hpos
      simp at hpos
    | cons x xs => exact ⟨x, xs, rfl⟩
  have hwlen : w.length = m1.length + m2.length - 1 := by
    have := congrArg List.length hw
    simp [List.length_append] at this
    omega
  have hs : m1 ++ (m2 ++ post) = c :: (w ++ post) := by
    rw [hW, hw, List.cons_append]
  have hM2c : matchLen2 p1 p2 (c :: (w ++ post)) = some (m1.length, m2.length) := by
    rw [← hs]; exact hM2
  rw [hs, reSubInsS_zero_some hM2c (by omega), ← hs]
  rw [List.take_left, List.drop_left, List.take_left]
  have hcont : reSubInsS p1 p2 ins (w ++ post) (m1.length + m2.length - 1) =
      reSubInsS p1 p2 ins post 0 := by
    rw [reSubInsS_state_drop, ← hwlen, List.drop_left]
  rw [hcont, reSubInsS_nomatch p1 p2 ins post hpost]
  simp [List.append_assoc]

theorem hasMatch2_of_head {p1 p2 : List Pat} {s : List Char} {n : Nat × Nat}
    (h : matchLen2 p1 p2 s = some n) : hasMatch2 p1 p2 s = true := by
  cases s with
  | nil => simp [hasMatch2, h]
  | cons c cs => simp [hasMatch2, h]

theorem hasMatch2_append_left {p1 p2 : List Pat} (a : List Char) {t : List Char}
    (h : hasMatch2 p1 p2 t = true) : hasMatch2 p1 p2 (a ++ t) = true := by
  induction a with
  | nil => simpa using h
  | cons c cs ih => simp [hasMatch2, ih]

/-! ## Containment lemmas -/

theorem containsSub_nil_needle (s : List Char) : containsSub [] s = true := by
  cases s <;> simp [containsSub, List.isPrefixOf]

theorem containsSub_tail {n : List Char} {c : Char} {cs : List Char}
    (h : containsSub n cs = true) : containsSub n (c :: cs) = true := by
  simp [containsSub, h]

theorem containsSub_of_isPrefixOf {n s : List Char} (h : n.isPrefixOf s = true) :
    containsSub n s = true := by
  cases s with
  | nil =>
    cases n with
    | nil => simp [containsSub]
    | cons a as => simp [List.isPrefixOf] at h
  | cons c cs => simp [containsSub, h]

theorem containsSub_drop {n : List Char} :
    ∀ (s : List Char) (k : Nat), containsSub n (List.drop k s) = true → containsSub n s = true := by
  intro s
  induction s with
  | nil => intro k h; simpa using h
  | cons c cs ih =>
    intro k h
    cases k with
    | zero => simpa using h
    | succ k => exact containsSub_tail (ih k (by simpa using h))

theorem isPrefixOf_append_split {a b s : List Char} :
    (a ++ b).isPrefixOf s = true → b.isPrefixOf (List.drop a.length s) = true := by
  induction a generalizing s with
  | nil => intro h; simpa using h
  | cons c cs ih =>
    intro h
    cases s with
    | nil => simp [List.isPrefixOf] at h
    | cons d ds =>
      rw [List.cons_append, List.isPrefixOf] at h
      simp only [Bool.and_eq_true] at h
      simpa using ih h.2

theorem matchLen_lit_isPrefixOf {l : List Char} {ps : List Pat} {s : List Char} {k : Nat}
    (h : matchLen (Pat.lit l :: ps) s = some k) : l.isPrefixOf s = true := by
  simp only [matchLen] at h
  by_cases hp : l.isPrefixOf s
  · exact hp
  · rw [if_neg hp] at h; simp at h

theorem hasMatch1_contains {l r : List Char} {rest : List Pat} :
    ∀ {c : List Char}, hasMatch1 (Pat.lit (l ++ r) :: rest) c = true → containsSub r c = true := by
  intro c
  induction c with
  | nil =>
    intro h
    simp only [hasMatch1] at h
    rcases hM : matchLen (Pat.lit (l ++ r) :: rest) [] with _ | k
    · rw [hM] at h; simp at h
    · have hp := matchLen_lit_isPrefixOf hM
      cases hlr : l ++ r with
      | nil =>
        have : r = [] := (List.append_eq_nil.mp hlr).2
        rw [this]
        exact containsSub_nil_needle []
      | cons x xs => rw [hlr] at hp; simp [List.isPrefixOf] at hp
  | cons ch cs ih =>
    intro h
    simp only [hasMatch1, Bool.or_eq_true] at h
    rcases h with h | h
    · rcases hM : matchLen (Pat.lit (l ++ r) :: rest) (ch :: cs) with _ | k
      · rw [hM] at h; simp at h
      · have hp := matchLen_lit_isPrefixOf hM
        have hr := isPrefixOf_append_split hp
        exact containsSub_drop _ _ (containsSub_of_isPrefixOf hr)
    · exact containsSub_tail (ih h)

theorem countOccS_zero {n : List Char} :
    ∀ (s : List Char) (k : Nat), containsSub n s = false → countOccS n s k = 0 := by
  intro s
  induction s with
  | nil => intro k _; rfl
  | cons c cs ih =>
    intro k hs
    simp only [containsSub, Bool.or_eq_false_iff] at hs
    cases k with
    | zero =>
      simp only [countOccS, hs.1, if_false]
      exact ih 0 hs.2
    | succ k => exact ih k hs.2

theorem countOcc_zero {n s : List Char} (h : containsSub n s = false) : countOcc n s = 0 :=
  countOccS_zero s 0 h

/-! ## Every removal pattern starts with a literal ending in `27SPARKLE` -/

theorem rp1_contains {c : List Char} (h : hasMatch1 rp1 c = true) : containsSub key27 c = true := by
  unfold rp1 at h
  rw [show S "\t\t\t\t27SPARKLE" = S "\t\t\t\t" ++ key27 from by decide] at h
  exact hasMatch1_contains h

theorem rp2_contains {c : List Char} (h : hasMatch1 rp2 c = true) : containsSub key27 c = true := by
  unfold rp2 at h
  rw [show S "\t\t\t\t27SPARKLE" = S "\t\t\t\t" ++ key27 from by decide] at h
  exact hasMatch1_contains h

theorem rp3_contains {c : List Char} (h : hasMatch1 rp3 c = true) : containsSub key27 c = true := by
  unfold rp3 at h
  rw [show S "\t\t\t\t27SPARKLE" = S "\t\t\t\t" ++ key27 from by decide] at h
  exact hasMatch1_contains h

theorem rp4_contains {c : List Char} (h : hasMatch1 rp4 c = true) : containsSub key27 c = true := by
  unfold rp4 at h
  rw [show S "\t\t27SPARKLE" = S "\t\t" ++ key27 from by decide] at h
  exact hasMatch1_contains h

theorem rp5_contains {c : List Char} (h : hasMatch1 rp5 c = true) : containsSub key27 c = true := by
  unfold rp5 at h
  rw [show S "\t\t27SPARKLE" = S "\t\t" ++ key27 from by decide] at h
  exact hasMatch1_contains h

theorem rp6_contains {c : List Char} (h : hasMatch1 rp6 c = true) : containsSub key27 c = true := by
  unfold rp6 at h
  rw [show S "\t\t27SPARKLE" = S "\t\t" ++ key27 from by decide] at h
  exact hasMatch1_contains h

/-- On a file with no occurrence of the reserved identifier prefix, every
removal pattern fails everywhere. -/
theorem hasMatch1_rp_false {c : List Char} (h : containsSub key27 c = false) :
    hasMatch1 rp1 c = false ∧ hasMatch1 rp2 c = false ∧ hasMatch1 rp3 c = false ∧
    hasMatch1 rp4 c = false ∧ hasMatch1 rp5 c = false ∧ hasMatch1 rp6 c = false := by
  refine ⟨?_, ?_, ?_, ?_, ?_, ?_⟩ <;>
    [rcases hb : hasMatch1 rp1 c; rcases hb : hasMatch1 rp2 c; rcases hb : hasMatch1 rp3 c;
     rcases hb : hasMatch1 rp4 c; rcases hb : hasMatch1 rp5 c; rcases hb : hasMatch1 rp6 c] <;>
    first
      | rfl
      | (exfalso; revert h; simp only [imp_false];
         first
           | (rw [rp1_contains hb]; simp)
           | (rw [rp2_contains hb]; simp)
           | (rw [rp3_contains hb]; simp)
           | (rw [rp4_contains hb]; simp)
           | (rw [rp5_contains hb]; simp)
           | (rw [rp6_contains hb]; simp))

/-- `remove` leaves any file without the reserved identifier prefix
byte-identical. -/
theorem removeContent_id {c : List Char} (h : containsSub key27 c = false) :
    removeContent c = c := by
  obtain ⟨h1, h2, h3, h4, h5, h6⟩ := hasMatch1_rp_false h
  unfold removeContent reSubDel
  rw [reSubDelS_nomatch rp1 c h1, reSubDelS_nomatch rp2 c h2,
      reSubDelS_nomatch rp3 c h3, reSubDelS_nomatch rp4 c h4,
      reSubDelS_nomatch rp5 c h5, reSubDelS_nomatch rp6 c h6]

/-- Without any occurrence of the dependency name the fully-configured
test fails. -/
theorem fullyConfigured_false_of_noSparkle {c : List Char}
    (h : containsSub sparkleName c = false) : fullyConfigured c = false := by
  unfold fullyConfigured
  rw [countOcc_zero h]
  simp

/-! ## The insertion passes only insert -/

theorem inserted_refl (ins : List Char) : ∀ c : List Char, Inserted ins c c := by
  intro c
  induction c with
  | nil => exact Inserted.nil
  | cons x cs ih => exact Inserted.keep x ih

theorem inserted_append_left {ins : List Char} (a : List Char) {t r : List Char}
    (h : Inserted ins t r) : Inserted ins (a ++ t) (a ++ r) := by
  induction a with
  | nil => simpa using h
  | cons x xs ih => exact Inserted.keep x ih

theorem inserted_reSubInsS (p1 p2 : List Pat) (ins : List Char) :
    ∀ (s : List Char) (k : Nat), Inserted ins (List.drop k s) (reSubInsS p1 p2 ins s k) := by
  intro s
  induction s with
  | nil => intro k; simpa using Inserted.nil
  | cons c cs ih =>
    intro k
    cases k with
    | succ k =>
      rw [reSubInsS_skip1, List.drop_succ_cons]
      exact ih k
    | zero =>
      simp only [List.drop_zero]
      rcases hM : matchLen2 p1 p2 (c :: cs) with _ | nn
      · rw [reSubInsS_zero_none hM]
        exact Inserted.keep c (by simpa using ih 0)
      · obtain ⟨n1, n2⟩ := nn
        by_cases hz : n1 + n2 = 0
        · have he : reSubInsS p1 p2 ins (c :: cs) 0 = c :: reSubInsS p1 p2 ins cs 0 := by
            simp [reSubInsS, hM, hz]
          rw [he]
          exact Inserted.keep c (by simpa using ih 0)
        · rw [reSubInsS_zero_some hM hz]
          have hd1 : List.drop (n1 + n2 - 1) cs = List.drop (n1 + n2) (c :: cs) := by
            obtain ⟨k, hk⟩ : ∃ k, n1 + n2 = k + 1 := ⟨n1 + n2 - 1, by omega⟩
            rw [hk]; simp [List.drop_succ_cons]
          have hsplit : c :: cs =
              List.take n1 (c :: cs) ++
                (List.take n2 (List.drop n1 (c :: cs)) ++ List.drop (n1 + n2) (c :: cs)) := by
            conv_lhs => rw [← List.take_append_drop n1 (c :: cs)]
            congr 1
            conv_lhs => rw [← List.take_append_drop n2 (List.drop n1 (c :: cs))]
            congr 1
            rw [List.drop_drop]
          have hrec := ih (n1 + n2 - 1)
          rw [hd1] at hrec
          have hmid : Inserted ins
              (List.take n2 (List.drop n1 (c :: cs)) ++ List.drop (n1 + n2) (c :: cs))
              (ins ++ (List.take n2 (List.drop n1 (c :: cs)) ++
                reSubInsS p1 p2 ins cs (n1 + n2 - 1))) :=
            Inserted.put (inserted_append_left _ hrec)
          have hall := inserted_append_left (List.take n1 (c :: cs)) hmid
          rw [← hsplit] at hall
          simpa [List.append_assoc] using hall

theorem inserted_reSubIns (p1 p2 : List Pat) (ins s : List Char) :
    Inserted ins s (reSubIns p1 p2 ins s) := by
  have := inserted_reSubInsS p1 p2 ins s 0
  simpa using this

/-! ## Inserting inert text cannot create an occurrence -/

theorem containsSub_append_r {n y : List Char} (x : List Char)
    (h : containsSub n y = true) : containsSub n (x ++ y) = true := by
  induction x with
  | nil => simpa using h
  | cons c cs ih => exact containsSub_tail ih

theorem isPrefixOf_append_mono {n s : List Char} (y : List Char)
    (h : n.isPrefixOf s = true) : n.isPrefixOf (s ++ y) = true := by
  induction n generalizing s with
  | nil => simp [List.isPrefixOf]
  | cons a as ih =>
    cases s with
    | nil => simp [List.isPrefixOf] at h
    | cons b bs =>
      rw [List.isPrefixOf] at h
      simp only [Bool.and_eq_true] at h
      rw [List.cons_append, List.isPrefixOf]
      simp only [Bool.and_eq_true]
      exact ⟨h.1, ih h.2⟩

theorem containsSub_append_l {n : List Char} (x y : List Char)
    (h : containsSub n x = true) : containsSub n (x ++ y) = true := by
  induction x with
  | nil =>
    simp only [containsSub, List.isEmpty_iff] at h
    subst h
    exact containsSub_nil_needle _
  | cons c cs ih =>
    simp only [containsSub, Bool.or_eq_true] at h
    rcases h with h | h
    · rw [List.cons_append]
      simp only [containsSub, Bool.or_eq_true]
      exact Or.inl (isPrefixOf_append_mono y h)
    · exact containsSub_tail (ih h)

theorem isPrefixOf_cut {n : List Char} :
    ∀ {x r : List Char}, n.isPrefixOf (x ++ r) = true → n.length ≤ x.length →
      n.isPrefixOf x = true := by
  induction n with
  | nil => intro x r _ _; simp [List.isPrefixOf]
  | cons a as ih =>
    intro x r h hl
    cases x with
    | nil => simp at hl
    | cons b bs =>
      rw [List.cons_append, List.isPrefixOf] at h
      simp only [Bool.and_eq_true] at h
      rw [List.isPrefixOf]
      simp only [Bool.and_eq_true]
      exact ⟨h.1, ih h.2 (by simpa using hl)⟩

theorem isPrefixOf_append_long {n : List Char} :
    ∀ {x r : List Char}, n.isPrefixOf (x ++ r) = true → x.length < n.length →
      (List.drop x.length n).isPrefixOf r = true := by
  intro x
  induction x generalizing n with
  | nil => intro r h _; simpa using h
  | cons b bs ih =>
    intro r h hl
    cases n with
    | nil => simp at hl
    | cons a as =>
      rw [List.cons_append, List.isPrefixOf] at h
      simp only [Bool.and_eq_true] at h
      simpa using ih h.2 (by simpa using hl)

theorem disjoint_not_mem {mid needle : List Char} {ch : Char}
    (hd : disjointChars mid needle = true) (hch : ch ∈ mid) : ch ∉ needle := by
  unfold disjointChars at hd
  rw [List.all_eq_true] at hd
  have := hd ch hch
  simpa using this

theorem not_contains_disjoint_head {needle : List Char} (hne : needle ≠ []) :
    ∀ (mid y : List Char), disjointChars mid needle = true →
      containsSub needle (mid ++ y) = true → containsSub needle y = true := by
  intro mid
  induction mid with
  | nil => intro y _ h; simpa using h
  | cons mc mcs ih =>
    intro y hd h
    rw [List.cons_append] at h
    simp only [containsSub, Bool.or_eq_true] at h
    rcases h with h | h
    · exfalso
      cases needle with
      | nil => exact hne rfl
      | cons nh nt =>
        rw [List.isPrefixOf] at h
        simp only [Bool.and_eq_true, beq_iff_eq] at h
        have hmem : mc ∈ nh :: nt := by
          rw [← h.1]; exact List.mem_cons_self nh nt
        exact disjoint_not_mem hd (List.mem_cons_self mc mcs) hmem
    · have hd2 : disjointChars mcs needle = true := by
        unfold disjointChars at hd ⊢
        rw [List.all_eq_true] at hd ⊢
        intro x hx
        exact hd x (List.mem_cons_of_mem mc hx)
      exact ih y hd2 h

theorem containsSub_append_mid {needle mid : List Char} (hne : needle ≠ [])
    (hmid : mid ≠ []) (hd : disjointChars mid needle = true) :
    ∀ (x y : List Char), containsSub needle (x ++ (mid ++ y)) = true →
      containsSub needle x = true ∨ containsSub needle y = true := by
  intro x
  induction x with
  | nil =>
    intro y h
    exact Or.inr (not_contains_disjoint_head hne mid y hd (by simpa using h))
  | cons c cs ih =>
    intro y h
    rw [List.cons_append] at h
    simp only [containsSub, Bool.or_eq_true] at h
    rcases h with h | h
    · by_cases hlen : needle.length ≤ (c :: cs).length
      · have hp : needle.isPrefixOf ((c :: cs) ++ (mid ++ y)) = true := by
          rw [List.cons_append]; exact h
        exact Or.inl (containsSub_of_isPrefixOf (isPrefixOf_cut hp hlen))
      · exfalso
        push_neg at hlen
        have hp : needle.isPrefixOf ((c :: cs) ++ (mid ++ y)) = true := by
          rw [List.cons_append]; exact h
        have hlong := isPrefixOf_append_long hp hlen
        have hdne : List.drop (c :: cs).length needle ≠ [] := by
          intro hcon
          have := congrArg List.length hcon
          rw [List.length_drop] at this
          simp only [List.length_nil] at this
          omega
        cases hD : List.drop (c :: cs).length needle with
        | nil => exact hdne hD
        | cons dh dt =>
          cases mid with
          | nil => exact hmid rfl
          | cons mc mcs =>
            rw [hD, List.cons_append, List.isPrefixOf] at hlong
            simp only [Bool.and_eq_true, beq_iff_eq] at hlong
            have hdh : dh ∈ needle := by
              have : dh ∈ List.drop (c :: cs).length needle := by
                rw [hD]; exact List.mem_cons_self dh dt
              exact List.drop_subset _ needle this
            rw [hlong.1] at hdh
            exact disjoint_not_mem hd (List.mem_cons_self mc mcs) hdh
    · rcases ih y h with hl | hr
      · exact Or.inl (containsSub_tail hl)
      · exact Or.inr hr

/-! ## Computing matches at the seams -/

theorem countWhile_all_append {cc : CharClass} {v : List Char} (w : List Char)
    (hv : v.all (charIn cc) = true) :
    countWhile cc (v ++ w) = v.length + countWhile cc w := by
  induction v with
  | nil => simp
  | cons a as ih =>
    simp only [List.all_cons, Bool.and_eq_true] at hv
    rw [List.cons_append, countWhile, if_pos hv.1, ih hv.2, List.length_cons]
    omega

theorem countWhile_head_stop {cc : CharClass} {c : Char} (t : List Char)
    (hc : charIn cc c = false) : countWhile cc (c :: t) = 0 := by
  rw [countWhile, if_neg (by simp [hc])]

theorem matchLen_single_lit (l t : List Char) :
    matchLen [Pat.lit l] (l ++ t) = some l.length := by
  simp [matchLen, isPrefixOf_append_self, List.drop_left]

theorem matchLen_nil_pat (t : List Char) : matchLen [] t = some 0 := rfl

theorem matchLen_lit_cls_lit (A v : List Char) (bh : Char) (bt t : List Char) (cc : CharClass)
    (hv : v.all (charIn cc) = true) (hvne : v ≠ [])
    (hBh : charIn cc bh = false) :
    matchLen [Pat.lit A, Pat.many1 cc, Pat.lit (bh :: bt)] (A ++ (v ++ ((bh :: bt) ++ t))) =
      some (A ++ (v ++ (bh :: bt))).length := by
  have h1 := isPrefixOf_append_self A (v ++ ((bh :: bt) ++ t))
  have hcw : countWhile cc (v ++ ((bh :: bt) ++ t)) = v.length := by
    rw [List.cons_append, countWhile_all_append _ hv, countWhile_head_stop _ hBh]
    omega
  have hvl : v.length ≠ 0 := by
    cases v with
    | nil => exact absurd rfl hvne
    | cons _ _ => simp
  have h2 := isPrefixOf_append_self (bh :: bt) t
  simp only [matchLen, h1, if_true, List.drop_left, hcw, if_neg hvl, h2]
  simp [List.length_append]

theorem matchLen_lit5 (A v : List Char) (bh : Char) (bt w : List Char) (ch : Char)
    (ct t : List Char) (cc1 cc2 : CharClass)
    (hv : v.all (charIn cc1) = true) (hvne : v ≠ [])
    (hBh : charIn cc1 bh = false)
    (hw : w.all (charIn cc2) = true) (hwne : w ≠ [])
    (hCh : charIn cc2 ch = false) :
    matchLen [Pat.lit A, Pat.many1 cc1, Pat.lit (bh :: bt), Pat.many1 cc2, Pat.lit (ch :: ct)]
      (A ++ (v ++ ((bh :: bt) ++ (w ++ ((ch :: ct) ++ t))))) =
      some (A ++ (v ++ ((bh :: bt) ++ (w ++ (ch :: ct))))).length := by
  have h1 := isPrefixOf_append_self A (v ++ ((bh :: bt) ++ (w ++ ((ch :: ct) ++ t))))
  have hcw1 : countWhile cc1 (v ++ ((bh :: bt) ++ (w ++ ((ch :: ct) ++ t)))) = v.length := by
    rw [List.cons_append, countWhile_all_append _ hv, countWhile_head_stop _ hBh]
    omega
  have hcw2 : countWhile cc2 (w ++ ((ch :: ct) ++ t)) = w.length := by
    rw [List.cons_append, countWhile_all_append _ hw, countWhile_head_stop _ hCh]
    omega
  have hvl : v.length ≠ 0 := by
    cases v with
    | nil => exact absurd rfl hvne
    | cons _ _ => simp
  have hwl : w.length ≠ 0 := by
    cases w with
    | nil => exact absurd rfl hwne
    | cons _ _ => simp
  have h2 := isPrefixOf_append_self (bh :: bt) (w ++ ((ch :: ct) ++ t))
  have h3 := isPrefixOf_append_self (ch :: ct) t
  simp only [matchLen, h1, if_true, List.drop_left, hcw1, if_neg hvl, h2, hcw2,
    if_neg hwl, h3]
  simp [List.length_append]
  omega

/-! ## The concrete seam facts -/

theorem seam_a1m1 (t : List Char) :
    matchLen a1p1 (lottieBuildLine ++ t) = some lottieBuildLine.length :=
  matchLen_single_lit lottieBuildLine t

theorem seam_a1m2 (t : List Char) :
    matchLen a1p2 (endPBX ++ t) = some endPBX.length :=
  matchLen_single_lit endPBX t

theorem seam_a2 (t : List Char) :
    matchLen a2p1 (lottieFwLine ++ t) = some lottieFwLine.length :=
  matchLen_single_lit lottieFwLine t

theorem seam_a3 (t : List Char) :
    matchLen a3p1 (ppdAnchor ++ t) = some ppdAnchor.length :=
  matchLen_single_lit ppdAnchor t

theorem seam_a4 (t : List Char) :
    matchLen a4p1 (prAnchor ++ t) = some prAnchor.length :=
  matchLen_single_lit prAnchor t

theorem seam_a6 (t : List Char) :
    matchLen a6p1 (lottieProdBlock ++ t) = some lottieProdBlock.length :=
  matchLen_single_lit lottieProdBlock t

theorem seam_a5fb (t : List Char) :
    matchLen a5fb (endRefMarker ++ t) = some endRefMarker.length :=
  matchLen_single_lit endRefMarker t

theorem seam_a6fb (t : List Char) :
    matchLen a6fb (endProdMarker ++ t) = some endProdMarker.length :=
  matchLen_single_lit endProdMarker t

theorem seam_a5 (t : List Char) :
    matchLen a5p1 (lottieRefBlock ++ t) = some lottieRefBlock.length := by
  unfold a5p1 lottieRefBlock
  rw [show lottieRefTail = (';' : Char) :: S "\n\t\t\t\x7d;\n\t\t\x7d;\n" from by decide]
  have := matchLen_lit_cls_lit lottieRefHead (S "4.5.0") ';'
    (S "\n\t\t\t\x7d;\n\t\t\x7d;\n") t CharClass.notSemi (by decide) (by decide) (by decide)
  simpa [List.append_assoc, List.cons_append] using this

theorem seam_rp1 (t : List Char) : matchLen rp1 (ins4 ++ t) = some ins4.length := by
  unfold rp1
  rw [show ins4 = S "\t\t\t\t27SPARKLE" ++ (S "00000000001" ++
        ((' ' : Char) :: S "/* XCRemoteSwiftPackageReference \"Sparkle\" */,\n")) from by decide,
      show S " /* XCRemoteSwiftPackageReference \"Sparkle\" */,\n" =
        (' ' : Char) :: S "/* XCRemoteSwiftPackageReference \"Sparkle\" */,\n" from by decide]
  have := matchLen_lit_cls_lit (S "\t\t\t\t27SPARKLE") (S "00000000001") ' '
    (S "/* XCRemoteSwiftPackageReference \"Sparkle\" */,\n") t CharClass.digit
    (by decide) (by decide) (by decide)
  simpa [List.append_assoc, List.cons_append] using this

theorem seam_rp2 (t : List Char) : matchLen rp2 (ins3 ++ t) = some ins3.length := by
  unfold rp2
  rw [show ins3 = S "\t\t\t\t27SPARKLE" ++ (S "00000000002" ++
        ((' ' : Char) :: S "/* Sparkle */,\n")) from by decide,
      show S " /* Sparkle */,\n" = (' ' : Char) :: S "/* Sparkle */,\n" from by decide]
  have := matchLen_lit_cls_lit (S "\t\t\t\t27SPARKLE") (S "00000000002") ' '
    (S "/* Sparkle */,\n") t CharClass.digit (by decide) (by decide) (by decide)
  simpa [List.append_assoc, List.cons_append] using this

theorem seam_rp3 (t : List Char) : matchLen rp3 (ins2 ++ t) = some ins2.length := by
  unfold rp3
  rw [show ins2 = S "\t\t\t\t27SPARKLE" ++ (S "00000000003" ++
        ((' ' : Char) :: S "/* Sparkle in Frameworks */,\n")) from by decide,
      show S " /* Sparkle in Frameworks */,\n" =
        (' ' : Char) :: S "/* Sparkle in Frameworks */,\n" from by decide]
  have := matchLen_lit_cls_lit (S "\t\t\t\t27SPARKLE") (S "00000000003") ' '
    (S "/* Sparkle in Frameworks */,\n") t CharClass.digit (by decide) (by decide) (by decide)
  simpa [List.append_assoc, List.cons_append] using this

theorem seam_rp4 (t : List Char) : matchLen rp4 (ins1 ++ t) = some ins1.length := by
  unfold rp4
  rw [show ins1 = S "\t\t27SPARKLE" ++ (S "00000000003" ++
        (((' ' : Char) :: S "/* Sparkle in Frameworks */ = \x7bisa = PBXBuildFile; productRef = 27SPARKLE") ++
          (S "00000000002" ++ ((' ' : Char) :: S "/* Sparkle */; \x7d;\n")))) from by decide,
      show S " /* Sparkle in Frameworks */ = \x7bisa = PBXBuildFile; productRef = 27SPARKLE" =
        (' ' : Char) :: S "/* Sparkle in Frameworks */ = \x7bisa = PBXBuildFile; productRef = 27SPARKLE" from by decide,
      show S " /* Sparkle */; \x7d;\n" = (' ' : Char) :: S "/* Sparkle */; \x7d;\n" from by decide]
  have := matchLen_lit5 (S "\t\t27SPARKLE") (S "00000000003") ' '
    (S "/* Sparkle in Frameworks */ = \x7bisa = PBXBuildFile; productRef = 27SPARKLE")
    (S "00000000002") ' ' (S "/* Sparkle */; \x7d;\n") t CharClass.digit CharClass.digit
    (by decide) (by decide) (by decide) (by decide) (by decide) (by decide)
  simpa [List.append_assoc, List.cons_append] using this

theorem seam_rp5 (t : List Char) : matchLen rp5 (ins5match ++ t) = some ins5match.length := by
  unfold rp5 ins5match tab2key
  rw [show S " /* XCRemoteSwiftPackageReference \"Sparkle\" */ = \x7b" =
        (' ' : Char) :: S "/* XCRemoteSwiftPackageReference \"Sparkle\" */ = \x7b" from by decide,
      show S "\x7d;\n" = ('\x7d' : Char) :: S ";\n" from by decide]
  have := matchLen_lit5 (S "\t\t27SPARKLE") (S "00000000001") ' '
    (S "/* XCRemoteSwiftPackageReference \"Sparkle\" */ = \x7b") ins5inner '\x7d' (S ";\n")
    t CharClass.digit CharClass.notBrace
    (by decide) (by decide) (by decide) (by decide) (by decide) (by decide)
  simpa [List.append_assoc, List.cons_append] using this

theorem seam_rp6 (t : List Char) : matchLen rp6 (ins6 ++ t) = some ins6.length := by
  unfold rp6
  rw [show ins6 = S "\t\t27SPARKLE" ++ (S "00000000002" ++
        (((' ' : Char) :: S "/* Sparkle */ = \x7b") ++
          (ins6inner ++ (('\x7d' : Char) :: S ";\n")))) from by decide,
      show S " /* Sparkle */ = \x7b" = (' ' : Char) :: S "/* Sparkle */ = \x7b" from by decide,
      show S "\x7d;\n" = ('\x7d' : Char) :: S ";\n" from by decide]
  have := matchLen_lit5 (S "\t\t27SPARKLE") (S "00000000002") ' '
    (S "/* Sparkle */ = \x7b") ins6inner '\x7d' (S ";\n") t CharClass.digit CharClass.notBrace
    (by decide) (by decide) (by decide) (by decide) (by decide) (by decide)
  simpa [List.append_assoc, List.cons_append] using this

/-! ## Branch lemmas for `add_sparkle` -/

theorem add_fully {c : List Char} (h : fullyConfigured c = true) :
    add_sparkle c =
      { content := c, writes := [], out := [Msg.alreadyConfigured],
        events := [Ev.read], success := true } := by
  simp [add_sparkle, h]

theorem add_clean {c : List Char} (h1 : fullyConfigured c = false)
    (h2 : containsSub sparkleName c = true) :
    add_sparkle c =
      { content := (runSteps (cleanupContent c)).1
        writes := [cleanupContent c, (runSteps (cleanupContent c)).1]
        out := [Msg.cleanupStart, Msg.cleanupDone] ++ (runSteps (cleanupContent c)).2 ++ [Msg.addedRefs]
        events := [Ev.read, Ev.write, Ev.read, Ev.write]
        success := true } := by
  simp [add_sparkle, h1, h2]

theorem add_noclean {c : List Char} (h1 : fullyConfigured c = false)
    (h2 : containsSub sparkleName c = false) :
    add_sparkle c =
      { content := (runSteps c).1
        writes := [(runSteps c).1]
        out := (runSteps c).2 ++ [Msg.addedRefs]
        events := [Ev.read, Ev.write]
        success := true } := by
  simp [add_sparkle, h1, h2]

theorem add_success (c : List Char) : (add_sparkle c).success = true := by
  unfold add_sparkle
  by_cases h1 : fullyConfigured c <;> by_cases h2 : containsSub sparkleName c <;>
    simp [h1, h2]

/-! ## Claim C10 -/

/-- C10: `add_sparkle` and `remove_sparkle` return the success value on
every input they complete, so a run with a valid action and a successful
read exits 0; the dispatcher's exit-1-on-False branch is unreachable. -/
theorem c10_always_success_exit0 :
    (∀ c : List Char, (add_sparkle c).success = true) ∧
    (∀ c : List Char, (remove_sparkle c).success = true) ∧
    (∀ (p f : String) (c : List Char), (mainRun [p, "add", f] (Except.ok c)).exit = 0) ∧
    (∀ (p f : String) (c : List Char), (mainRun [p, "remove", f] (Except.ok c)).exit = 0) := by
  refine ⟨add_success, fun c => rfl, ?_, ?_⟩
  · intro p f c
    simp [mainRun, add_success c]
  · intro p f c
    simp [mainRun, remove_sparkle]

/-! ## Claim C9 -/

/-- C9: `remove` performs exactly one read followed by one write; `add`
performs at most two read+write cycles, and performs the second exactly
when the dependency name occurs but the full-configuration check fails
(the partial-state cleanup). -/
theorem c9_read_write_cycles :
    (∀ c : List Char, (remove_sparkle c).events = [Ev.read, Ev.write]) ∧
    (∀ c : List Char,
      (add_sparkle c).events = [Ev.read] ∨
      (add_sparkle c).events = [Ev.read, Ev.write] ∨
      (add_sparkle c).events = [Ev.read, Ev.write, Ev.read, Ev.write]) ∧
    (∀ c : List Char,
      (add_sparkle c).events = [Ev.read, Ev.write, Ev.read, Ev.write] ↔
        (containsSub sparkleName c = true ∧ fullyConfigured c = false)) := by
  refine ⟨fun c => rfl, ?_, ?_⟩
  · intro c
    by_cases h1 : fullyConfigured c
    · rw [add_fully h1]; left; rfl
    · by_cases h2 : containsSub sparkleName c
      · rw [add_clean (by simpa using h1) h2]; right; right; rfl
      · rw [add_noclean (by simpa using h1) (by simpa using h2)]; right; left; rfl
  · intro c
    by_cases h1 : fullyConfigured c
    · rw [add_fully h1]
      constructor
      · intro h; cases h
      · intro h; rw [h1] at h; cases h.2
    · by_cases h2 : containsSub sparkleName c
      · rw [add_clean (by simpa using h1) h2]
        constructor
        · intro _; exact ⟨h2, by simpa using h1⟩
        · intro _; rfl
      · rw [add_noclean (by simpa using h1) (by simpa using h2)]
        constructor
        · intro h; cases h
        · intro h
          rw [h.1] at h2
          exact absurd rfl h2

/-! ## Claim C6 -/

/-- C6: exit code 0 on success and 1 on failure: a wrong operand count or
an unknown action prints a message and exits 1 without touching the file;
an exception while processing (modelled by the failing read) is caught,
its message goes to standard error, and the process exits 1; otherwise a
valid action exits 0. -/
theorem c6_exit_codes :
    (∀ (argv : List String) (file : Except String (List Char)), argv.length ≠ 3 →
      mainRun argv file =
        { exit := 1, opened := false, writes := [], out := [Msg.usage], errOut := none }) ∧
    (∀ (p a f : String) (file : Except String (List Char)), a ≠ "add" → a ≠ "remove" →
      mainRun [p, a, f] file =
        { exit := 1, opened := false, writes := [], out := [Msg.unknownAction], errOut := none }) ∧
    (∀ (p f e : String),
      mainRun [p, "add", f] (Except.error e) =
        { exit := 1, opened := true, writes := [], out := [], errOut := some e }) ∧
    (∀ (p f e : String),
      mainRun [p, "remove", f] (Except.error e) =
        { exit := 1, opened := true, writes := [], out := [], errOut := some e }) ∧
    (∀ (p f : String) (c : List Char), (mainRun [p, "add", f] (Except.ok c)).exit = 0) ∧
    (∀ (p f : String) (c : List Char), (mainRun [p, "remove", f] (Except.ok c)).exit = 0) := by
  refine ⟨?_, ?_, ?_, ?_, ?_, ?_⟩
  · intro argv file h
    rcases argv with _ | ⟨x, _ | ⟨y, _ | ⟨z, _ | ⟨w, r⟩⟩⟩⟩
    · rfl
    · rfl
    · rfl
    · exact absurd rfl h
    · rfl
  · intro p a f file h1 h2
    simp [mainRun, h1, h2]
  · intro p f e
    simp [mainRun]
  · intro p f e
    simp [mainRun]
  · intro p f c
    simp [mainRun, add_success c]
  · intro p f c
    simp [mainRun, remove_sparkle]

/-- Witness for C6 at concrete invocations. -/
theorem c6_exit_codes_witness :
    mainRun ["tool"] (Except.ok []) =
      { exit := 1, opened := false, writes := [], out := [Msg.usage], errOut := none } ∧
    mainRun ["tool", "install", "f"] (Except.ok []) =
      { exit := 1, opened := false, writes := [], out := [Msg.unknownAction], errOut := none } ∧
    mainRun ["tool", "add", "f"] (Except.error "boom") =
      { exit := 1, opened := true, writes := [], out := [], errOut := some "boom" } ∧
    (mainRun ["tool", "remove", "f"] (Except.ok [])).exit = 0 := by
  refine ⟨?_, ?_, ?_, ?_⟩
  · exact c6_exit_codes.1 ["tool"] (Except.ok []) (by decide)
  · exact c6_exit_codes.2.1 "tool" "install" "f" (Except.ok []) (by decide) (by decide)
  · exact c6_exit_codes.2.2.1 "tool" "f" "boom"
  · exact c6_exit_codes.2.2.2.2.2 "tool" "f" []

/-! ## Claim C8 -/

/-- C8: on a file where the managed entries are detected as already fully
present — the dependency name occurring at least nine times together with
the primary package-reference identifier — `add` is a no-op that reports
success and does not modify the file. -/
theorem c8_fully_configured_noop (c : List Char) (h : fullyConfigured c = true) :
    add_sparkle c =
      { content := c, writes := [], out := [Msg.alreadyConfigured],
        events := [Ev.read], success := true } :=
  add_fully h

/-- Witness for C8 at the fully added standard file. -/
theorem c8_fully_configured_noop_witness :
    fullyConfigured addedP = true ∧
    add_sparkle addedP =
      { content := addedP, writes := [], out := [Msg.alreadyConfigured],
        events := [Ev.read], success := true } := by
  have h : fullyConfigured addedP = true := by decide
  exact ⟨h, c8_fully_configured_noop addedP h⟩

/-! ## Claim C2 -/

/-- C2 counterexample: on the empty descriptor file `add` succeeds, yet a
second `add` performs a write (with identical contents) and does not print
the already-configured notice — so the claim fails for a file on which
`add` merely succeeds. -/
theorem c2_counterexample_empty_file :
    (add_sparkle []).success = true ∧
    (add_sparkle ((add_sparkle []).content)).writes = [[]] ∧
    (add_sparkle ((add_sparkle []).content)).out =
      [Msg.warnBuildFile, Msg.warnFrameworks, Msg.warnProdDeps, Msg.warnPkgRefs,
       Msg.warnRemoteRef, Msg.warnProdDep, Msg.addedRefs] := by
  decide

/-- C2 (amended): whenever the first `add` leaves the file in the fully
configured state its own check detects, the second `add` keeps the
contents identical, prints the already-configured notice and performs no
write. -/
theorem c2_second_add_noop (c : List Char)
    (h : fullyConfigured ((add_sparkle c).content) = true) :
    add_sparkle ((add_sparkle c).content) =
      { content := (add_sparkle c).content, writes := [],
        out := [Msg.alreadyConfigured], events := [Ev.read], success := true } :=
  add_fully h

/-- Witness for C2 at the fully added standard file. -/
theorem c2_second_add_noop_witness :
    fullyConfigured ((add_sparkle addedP).content) = true ∧
    add_sparkle ((add_sparkle addedP).content) =
      { content := (add_sparkle addedP).content, writes := [],
        out := [Msg.alreadyConfigured], events := [Ev.read], success := true } := by
  have hf : fullyConfigured addedP = true := by decide
  have h1 : (add_sparkle addedP).content = addedP := by rw [add_fully hf]
  have h2 : fullyConfigured ((add_sparkle addedP).content) = true := by rw [h1]; exact hf
  exact ⟨h2, c2_second_add_noop addedP h2⟩

/-! ## The concrete runs on the standard file, one pass at a time -/

theorem hA0 : fullyConfigured pristineP = false := by decide

theorem hA0b : containsSub sparkleName pristineP = false := by decide

theorem eA1 : step1 pristineP = (pA1, []) := by
  rw [step1, if_pos (show hasMatch2 a1p1 a1p2 pristineP = true from by decide),
    eq_of_beq (show (reSubIns a1p1 a1p2 ins1 pristineP == pA1) = true from by decide)]

theorem eA2 : step2 pA1 = (pA2, []) := by
  rw [step2, if_pos (show hasMatch2 a2p1 [] pA1 = true from by decide),
    eq_of_beq (show (reSubIns a2p1 [] ins2 pA1 == pA2) = true from by decide)]

theorem eA3 : step3 pA2 = (pA3, []) := by
  rw [step3, if_pos (show hasMatch2 a3p1 [] pA2 = true from by decide),
    eq_of_beq (show (reSubIns a3p1 [] ins3 pA2 == pA3) = true from by decide)]

theorem eA4 : step4 pA3 = (pA4, []) := by
  rw [step4, if_pos (show hasMatch2 a4p1 [] pA3 = true from by decide),
    eq_of_beq (show (reSubIns a4p1 [] ins4 pA3 == pA4) = true from by decide)]

theorem eA5 : step5 pA4 = (pA5, []) := by
  rw [step5, if_pos (show hasMatch2 a5p1 [] pA4 = true from by decide),
    eq_of_beq (show (reSubIns a5p1 [] ins5 pA4 == pA5) = true from by decide)]

theorem eA6 : step6 pA5 = (addedP, []) := by
  rw [step6, if_pos (show hasMatch2 a6p1 [] pA5 = true from by decide),
    eq_of_beq (show (reSubIns a6p1 [] ins6 pA5 == addedP) = true from by decide)]

theorem runSteps_pristine : runSteps pristineP = (addedP, []) := by
  simp only [runSteps, eA1, eA2, eA3, eA4, eA5, eA6, List.append_nil]

theorem add_pristine : add_sparkle pristineP =
    { content := addedP, writes := [addedP], out := [Msg.addedRefs],
      events := [Ev.read, Ev.write], success := true } := by
  rw [add_noclean hA0 hA0b, runSteps_pristine]
  rfl

theorem eB1 : reSubDel rp1 addedP = rB1 := eq_of_beq (by decide)

theorem eB2 : reSubDel rp2 rB1 = rB2 := eq_of_beq (by decide)

theorem eB3 : reSubDel rp3 rB2 = rB3 := eq_of_beq (by decide)

theorem eB4 : reSubDel rp4 rB3 = rB4 := eq_of_beq (by decide)

theorem eB5 : reSubDel rp5 rB4 = rB5 := eq_of_beq (by decide)

theorem eB6 : reSubDel rp6 rB5 = roundtripP := eq_of_beq (by decide)

theorem remove_added : removeContent addedP = roundtripP := by
  unfold removeContent
  rw [eB1, eB2, eB3, eB4, eB5, eB6]

theorem hC0 : fullyConfigured partialP4 = false := by decide

theorem hC0b : containsSub sparkleName partialP4 = true := by decide

theorem eC1 : reSubDel cp1 partialP4 = cC1 := eq_of_beq (by decide)

theorem eC2 : reSubDel rp2 cC1 = cC1 := eq_of_beq (by decide)

theorem eC3 : reSubDel rp3 cC1 = cC1 := eq_of_beq (by decide)

theorem eC4 : reSubDel rp4 cC1 = cC1 := eq_of_beq (by decide)

theorem eC5 : reSubDel rp5 cC1 = cC1 := eq_of_beq (by decide)

theorem eC6 : reSubDel rp6 cC1 = cC1 := eq_of_beq (by decide)

theorem cleanup_partialP4 : cleanupContent partialP4 = cC1 := by
  unfold cleanupContent
  rw [eC1, eC2, eC3, eC4, eC5, eC6]

theorem eD1 : step1 cC1 = (cC2, []) := by
  rw [step1, if_pos (show hasMatch2 a1p1 a1p2 cC1 = true from by decide),
    eq_of_beq (show (reSubIns a1p1 a1p2 ins1 cC1 == cC2) = true from by decide)]

theorem eD2 : step2 cC2 = (cC3, []) := by
  rw [step2, if_pos (show hasMatch2 a2p1 [] cC2 = true from by decide),
    eq_of_beq (show (reSubIns a2p1 [] ins2 cC2 == cC3) = true from by decide)]

theorem eD3 : step3 cC3 = (cC4, []) := by
  rw [step3, if_pos (show hasMatch2 a3p1 [] cC3 = true from by decide),
    eq_of_beq (show (reSubIns a3p1 [] ins3 cC3 == cC4) = true from by decide)]

theorem eD4 : step4 cC4 = (cC5, []) := by
  rw [step4, if_pos (show hasMatch2 a4p1 [] cC4 = true from by decide),
    eq_of_beq (show (reSubIns a4p1 [] ins4 cC4 == cC5) = true from by decide)]

theorem eD5 : step5 cC5 = (cC6, []) := by
  rw [step5, if_pos (show hasMatch2 a5p1 [] cC5 = true from by decide),
    eq_of_beq (show (reSubIns a5p1 [] ins5 cC5 == cC6) = true from by decide)]

theorem eD6 : step6 cC6 = (addedP4, []) := by
  rw [step6, if_pos (show hasMatch2 a6p1 [] cC6 = true from by decide),
    eq_of_beq (show (reSubIns a6p1 [] ins6 cC6 == addedP4) = true from by decide)]

theorem runSteps_cC1 : runSteps cC1 = (addedP4, []) := by
  simp only [runSteps, eD1, eD2, eD3, eD4, eD5, eD6, List.append_nil]

theorem add_partialP4 : add_sparkle partialP4 =
    { content := addedP4, writes := [cC1, addedP4],
      out := [Msg.cleanupStart, Msg.cleanupDone, Msg.addedRefs],
      events := [Ev.read, Ev.write, Ev.read, Ev.write], success := true } := by
  rw [add_clean hC0 hC0b, cleanup_partialP4, runSteps_cC1]
  rfl

/-! ## Claim C1 -/

/-- C1: the add/remove round trip on the standard pristine descriptor file
is NOT byte-identical: removal pattern 5 (`\{[^}]+\};`) stops at the first
`}` — the one closing the nested `requirement` sub-block that `add` itself
writes — and leaves a dangling `\t\t};` line behind. -/
theorem c1_roundtrip_not_identity :
    removeContent (addContent pristineP) = roundtripP ∧
    (roundtripP == pristineP) = false := by
  have h : addContent pristineP = addedP := by
    rw [addContent, add_pristine]
  exact ⟨by rw [h, remove_added], by decide⟩

/-! ## Claim C3 -/

/-- C3: partial-state repair fails on the standard file: with only the
packageReferences entry populated, the two-tab cleanup pattern (line 63)
eats that four-tab entry from its third character on, stranding two tab
characters, so `add` on the partial file differs from `add` on the
pristine file (which the cleanup's own success message contradicts). -/
theorem c3_partial_repair_differs :
    addContent partialP4 = addedP4 ∧
    addContent pristineP = addedP ∧
    (addedP4 == addedP) = false := by
  have h4 : addContent partialP4 = addedP4 := by
    rw [addContent, add_partialP4]
  have hp : addContent pristineP = addedP := by
    rw [addContent, add_pristine]
  exact ⟨h4, hp, by decide⟩

/-! ## Per-step insertion-only lemmas -/

theorem step1_inserted (c : List Char) : Inserted ins1 c (step1 c).1 := by
  unfold step1
  by_cases h : hasMatch2 a1p1 a1p2 c
  · simp only [h, if_true]
    exact inserted_reSubIns a1p1 a1p2 ins1 c
  · simp only [h, if_false]
    exact inserted_refl ins1 c

theorem step2_inserted (c : List Char) : Inserted ins2 c (step2 c).1 := by
  unfold step2
  by_cases h : hasMatch2 a2p1 [] c
  · simp only [h, if_true]
    exact inserted_reSubIns a2p1 [] ins2 c
  · simp only [h, if_false]
    exact inserted_refl ins2 c

theorem step3_inserted (c : List Char) : Inserted ins3 c (step3 c).1 := by
  unfold step3
  by_cases h : hasMatch2 a3p1 [] c
  · simp only [h, if_true]
    exact inserted_reSubIns a3p1 [] ins3 c
  · simp only [h, if_false]
    exact inserted_refl ins3 c

theorem step4_inserted (c : List Char) : Inserted ins4 c (step4 c).1 := by
  unfold step4
  by_cases h : hasMatch2 a4p1 [] c
  · simp only [h, if_true]
    exact inserted_reSubIns a4p1 [] ins4 c
  · simp only [h, if_false]
    exact inserted_refl ins4 c

theorem step5_inserted (c : List Char) : Inserted ins5 c (step5 c).1 := by
  unfold step5
  by_cases h : hasMatch2 a5p1 [] c
  · simp only [h, if_true]
    exact inserted_reSubIns a5p1 [] ins5 c
  · simp only [h, if_false]
    exact inserted_reSubIns [] a5fb ins5 c

theorem step6_inserted (c : List Char) : Inserted ins6 c (step6 c).1 := by
  unfold step6
  by_cases h : hasMatch2 a6p1 [] c
  · simp only [h, if_true]
    exact inserted_reSubIns a6p1 [] ins6 c
  · simp only [h, if_false]
    exact inserted_reSubIns [] a6fb ins6 c

/-! ## Claim C7 -/

/-- C7 counterexample: on a file whose managed block is malformed (its own
closing brace missing), removal pattern 5 swallows a following line that
belongs to another dependency — `remove` alters other dependencies' text. -/
theorem c7_counterexample_malformed_block :
    removeContent isoBad = S "tail\n" ∧
    containsSub otherDepLine isoBad = true ∧
    containsSub otherDepLine (removeContent isoBad) = false := by
  have h : removeContent isoBad = S "tail\n" := eq_of_beq (by decide)
  refine ⟨h, by decide, ?_⟩
  rw [h]
  decide

/-- C7 (amended): on any file with no occurrence of the reserved
identifier prefix, `remove` rewrites the file unchanged; on any file with
no occurrence of the dependency name, `add` never deletes or alters an
existing byte — its result is obtained from the original purely by
inserting the six fixed entry texts, in insertion order. -/
theorem c7_isolation_amended :
    (∀ c : List Char, containsSub key27 c = false → removeContent c = c) ∧
    (∀ c : List Char, containsSub sparkleName c = false →
      AddOnlyInserts c (add_sparkle c).content) := by
  constructor
  · intro c h
    exact removeContent_id h
  · intro c h
    have h1 : fullyConfigured c = false := fullyConfigured_false_of_noSparkle h
    rw [add_noclean h1 h]
    refine ⟨(step1 c).1, (step2 (step1 c).1).1, (step3 (step2 (step1 c).1).1).1,
      (step4 (step3 (step2 (step1 c).1).1).1).1,
      (step5 (step4 (step3 (step2 (step1 c).1).1).1).1).1,
      step1_inserted c, step2_inserted _, step3_inserted _, step4_inserted _,
      step5_inserted _, ?_⟩
    simp only [runSteps]
    exact step6_inserted _

/-- Witness for C7 at a small managed-text-free file. -/
theorem c7_isolation_amended_witness :
    containsSub key27 (S "hello world\n") = false ∧
    removeContent (S "hello world\n") = S "hello world\n" ∧
    containsSub sparkleName (S "hello world\n") = false ∧
    AddOnlyInserts (S "hello world\n") (add_sparkle (S "hello world\n")).content := by
  refine ⟨by decide, c7_isolation_amended.1 _ (by decide), by decide,
    c7_isolation_amended.2 _ (by decide)⟩

/-! ## Claim C5 -/

/-- C5: each of the six insertions is guarded by its own anchor search;
for the first four, an absent anchor yields a warning while the content is
left untouched and the run still succeeds; for the last two, an absent
anchor yields a warning and a fallback substitution, which — whenever the
section's closing marker is present (once) — inserts the block immediately
before that marker. -/
theorem c5_anchor_guards :
    (∀ c : List Char, hasMatch2 a1p1 a1p2 c = false → step1 c = (c, [Msg.warnBuildFile])) ∧
    (∀ c : List Char, hasMatch2 a2p1 [] c = false → step2 c = (c, [Msg.warnFrameworks])) ∧
    (∀ c : List Char, hasMatch2 a3p1 [] c = false → step3 c = (c, [Msg.warnProdDeps])) ∧
    (∀ c : List Char, hasMatch2 a4p1 [] c = false → step4 c = (c, [Msg.warnPkgRefs])) ∧
    (∀ c : List Char, hasMatch2 a5p1 [] c = false →
      step5 c = (reSubIns [] a5fb ins5 c, [Msg.warnRemoteRef])) ∧
    (∀ c : List Char, hasMatch2 a6p1 [] c = false →
      step6 c = (reSubIns [] a6fb ins6 c, [Msg.warnProdDep])) ∧
    (∀ a b : List Char, hasMatch2 a5p1 [] (a ++ (endRefMarker ++ b)) = false →
      noMatchBefore2 [] a5fb a (endRefMarker ++ b) = true →
      hasMatch2 [] a5fb b = false →
      step5 (a ++ (endRefMarker ++ b)) =
        (a ++ (ins5 ++ (endRefMarker ++ b)), [Msg.warnRemoteRef])) ∧
    (∀ a b : List Char, hasMatch2 a6p1 [] (a ++ (endProdMarker ++ b)) = false →
      noMatchBefore2 [] a6fb a (endProdMarker ++ b) = true →
      hasMatch2 [] a6fb b = false →
      step6 (a ++ (endProdMarker ++ b)) =
        (a ++ (ins6 ++ (endProdMarker ++ b)), [Msg.warnProdDep])) ∧
    (∀ c : List Char, (add_sparkle c).success = true) := by
  refine ⟨?_, ?_, ?_, ?_, ?_, ?_, ?_, ?_, add_success⟩
  · intro c h; simp [step1, h]
  · intro c h; simp [step2, h]
  · intro c h; simp [step3, h]
  · intro c h; simp [step4, h]
  · intro c h; simp [step5, h]
  · intro c h; simp [step6, h]
  · intro a b h hpre hpost
    simp only [step5, h, if_false]
    have hs := reSubIns_single [] a5fb ins5 a [] endRefMarker b
      (by simpa using hpre) rfl (seam_a5fb b) (by simp [endRefMarker, S]) hpost
    simp only [List.nil_append] at hs
    rw [hs]
    simp
  · intro a b h hpre hpost
    simp only [step6, h, if_false]
    have hs := reSubIns_single [] a6fb ins6 a [] endProdMarker b
      (by simpa using hpre) rfl (seam_a6fb b) (by simp [endProdMarker, S]) hpost
    simp only [List.nil_append] at hs
    rw [hs]
    simp

/-- Witness for C5: the guards at the empty file and the fallbacks at a
small file holding only the closing markers. -/
theorem c5_anchor_guards_witness :
    (hasMatch2 a1p1 a1p2 [] = false ∧ step1 [] = ([], [Msg.warnBuildFile])) ∧
    (hasMatch2 a2p1 [] [] = false ∧ step2 [] = ([], [Msg.warnFrameworks])) ∧
    (hasMatch2 a3p1 [] [] = false ∧ step3 [] = ([], [Msg.warnProdDeps])) ∧
    (hasMatch2 a4p1 [] [] = false ∧ step4 [] = ([], [Msg.warnPkgRefs])) ∧
    step5 (S "x\n" ++ (endRefMarker ++ S "\ny")) =
      (S "x\n" ++ (ins5 ++ (endRefMarker ++ S "\ny")), [Msg.warnRemoteRef]) ∧
    step6 (S "x\n" ++ (endProdMarker ++ S "\ny")) =
      (S "x\n" ++ (ins6 ++ (endProdMarker ++ S "\ny")), [Msg.warnProdDep]) := by
  refine ⟨⟨by decide, ?_⟩, ⟨by decide, ?_⟩, ⟨by decide, ?_⟩, ⟨by decide, ?_⟩, ?_, ?_⟩
  · exact c5_anchor_guards.1 [] (by decide)
  · exact c5_anchor_guards.2.1 [] (by decide)
  · exact c5_anchor_guards.2.2.1 [] (by decide)
  · exact c5_anchor_guards.2.2.2.1 [] (by decide)
  · exact c5_anchor_guards.2.2.2.2.2.2.1 (S "x\n") (S "\ny") (by decide) (by decide) (by decide)
  · exact c5_anchor_guards.2.2.2.2.2.2.2.1 (S "x\n") (S "\ny") (by decide) (by decide) (by decide)

/-- One-group specialization of the insertion master lemma. -/
theorem reSubIns_single1 (p1 : List Pat) (ins pre m1 post : List Char)
    (hpre : noMatchBefore2 p1 [] pre (m1 ++ post) = true)
    (hm1 : matchLen p1 (m1 ++ post) = some m1.length)
    (hpos : 0 < m1.length)
    (hpost : hasMatch2 p1 [] post = false) :
    reSubIns p1 [] ins (pre ++ (m1 ++ post)) = pre ++ (m1 ++ (ins ++ post)) := by
  have h := reSubIns_single p1 [] ins pre m1 [] post (by simpa using hpre)
    (by simpa using hm1) rfl (by simpa using hpos) hpost
  simpa using h

/-- A seam match makes the guard search succeed (one-group form). -/
theorem hasMatch2_seam1 (p1 : List Pat) (pre : List Char) {m1 : List Char} (post : List Char)
    (hm1 : matchLen p1 (m1 ++ post) = some m1.length) :
    hasMatch2 p1 [] (pre ++ (m1 ++ post)) = true :=
  hasMatch2_append_left pre (hasMatch2_of_head (matchLen2_intro hm1 rfl))

/-- A seam match makes the guard search succeed (two-group form). -/
theorem hasMatch2_seam2 (p1 p2 : List Pat) (pre : List Char) (m1 m2 : List Char)
    (post : List Char)
    (hm1 : matchLen p1 (m1 ++ (m2 ++ post)) = some m1.length)
    (hm2 : matchLen p2 (m2 ++ post) = some m2.length) :
    hasMatch2 p1 p2 (pre ++ (m1 ++ (m2 ++ post))) = true :=
  hasMatch2_append_left pre
    (hasMatch2_of_head (matchLen2_intro hm1 (by rw [List.drop_left]; exact hm2)))

/-- On the standard-layout family, `add`'s six insertion passes put exactly
one entry at each location, provided every anchor matches only at its
standard position at each stage. -/
theorem famP_add (g0 g1 g2 g3 g4 g5 g6 : List Char)
        (ha1 : noMatchBefore2 a1p1 a1p2 (g0) (lottieBuildLine ++ (endPBX ++ (g1 ++ (lottieFwLine ++ (g2 ++ (ppdAnchor ++ (g3 ++ (prAnchor ++ (g4 ++ (lottieRefBlock ++ (endRefMarker ++ (g5 ++ (lottieProdBlock ++ (endProdMarker ++ (g6))))))))))))))) = true)
    (hb1 : hasMatch2 a1p1 a1p2 (g1 ++ (lottieFwLine ++ (g2 ++ (ppdAnchor ++ (g3 ++ (prAnchor ++ (g4 ++ (lottieRefBlock ++ (endRefMarker ++ (g5 ++ (lottieProdBlock ++ (endProdMarker ++ (g6))))))))))))) = false)
    (ha2 : noMatchBefore2 a2p1 [] (g0 ++ (lottieBuildLine ++ (ins1 ++ (endPBX ++ (g1))))) (lottieFwLine ++ (g2 ++ (ppdAnchor ++ (g3 ++ (prAnchor ++ (g4 ++ (lottieRefBlock ++ (endRefMarker ++ (g5 ++ (lottieProdBlock ++ (endProdMarker ++ (g6)))))))))))) = true)
    (hb2 : hasMatch2 a2p1 [] (g2 ++ (ppdAnchor ++ (g3 ++ (prAnchor ++ (g4 ++ (lottieRefBlock ++ (endRefMarker ++ (g5 ++ (lottieProdBlock ++ (endProdMarker ++ (g6))))))))))) = false)
    (ha3 : noMatchBefore2 a3p1 [] (g0 ++ (lottieBuildLine ++ (ins1 ++ (endPBX ++ (g1 ++ (lottieFwLine ++ (ins2 ++ (g2)))))))) (ppdAnchor ++ (g3 ++ (prAnchor ++ (g4 ++ (lottieRefBlock ++ (endRefMarker ++ (g5 ++ (lottieProdBlock ++ (endProdMarker ++ (g6)))))))))) = true)
    (hb3 : hasMatch2 a3p1 [] (g3 ++ (prAnchor ++ (g4 ++ (lottieRefBlock ++ (endRefMarker ++ (g5 ++ (lottieProdBlock ++ (endProdMarker ++ (g6))))))))) = false)
    (ha4 : noMatchBefore2 a4p1 [] (g0 ++ (lottieBuildLine ++ (ins1 ++ (endPBX ++ (g1 ++ (lottieFwLine ++ (ins2 ++ (g2 ++ (ppdAnchor ++ (ins3 ++ (g3))))))))))) (prAnchor ++ (g4 ++ (lottieRefBlock ++ (endRefMarker ++ (g5 ++ (lottieProdBlock ++ (endProdMarker ++ (g6)))))))) = true)
    (hb4 : hasMatch2 a4p1 [] (g4 ++ (lottieRefBlock ++ (endRefMarker ++ (g5 ++ (lottieProdBlock ++ (endProdMarker ++ (g6))))))) = false)
    (ha5 : noMatchBefore2 a5p1 [] (g0 ++ (lottieBuildLine ++ (ins1 ++ (endPBX ++ (g1 ++ (lottieFwLine ++ (ins2 ++ (g2 ++ (ppdAnchor ++ (ins3 ++ (g3 ++ (prAnchor ++ (ins4 ++ (g4)))))))))))))) (lottieRefBlock ++ (endRefMarker ++ (g5 ++ (lottieProdBlock ++ (endProdMarker ++ (g6)))))) = true)
    (hb5 : hasMatch2 a5p1 [] (endRefMarker ++ (g5 ++ (lottieProdBlock ++ (endProdMarker ++ (g6))))) = false)
    (ha6 : noMatchBefore2 a6p1 [] (g0 ++ (lottieBuildLine ++ (ins1 ++ (endPBX ++ (g1 ++ (lottieFwLine ++ (ins2 ++ (g2 ++ (ppdAnchor ++ (ins3 ++ (g3 ++ (prAnchor ++ (ins4 ++ (g4 ++ (lottieRefBlock ++ (ins5 ++ (endRefMarker ++ (g5)))))))))))))))))) (lottieProdBlock ++ (endProdMarker ++ (g6))) = true)
    (hb6 : hasMatch2 a6p1 [] (endProdMarker ++ (g6)) = false) :
    runSteps (famP g0 g1 g2 g3 g4 g5 g6) = (famAdded g0 g1 g2 g3 g4 g5 g6, []) := by
  have p1 := reSubIns_single a1p1 a1p2 ins1 (g0) lottieBuildLine endPBX (g1 ++ (lottieFwLine ++ (g2 ++ (ppdAnchor ++ (g3 ++ (prAnchor ++ (g4 ++ (lottieRefBlock ++ (endRefMarker ++ (g5 ++ (lottieProdBlock ++ (endProdMarker ++ (g6))))))))))))) ha1 (seam_a1m1 (endPBX ++ (g1 ++ (lottieFwLine ++ (g2 ++ (ppdAnchor ++ (g3 ++ (prAnchor ++ (g4 ++ (lottieRefBlock ++ (endRefMarker ++ (g5 ++ (lottieProdBlock ++ (endProdMarker ++ (g6))))))))))))))) (seam_a1m2 (g1 ++ (lottieFwLine ++ (g2 ++ (ppdAnchor ++ (g3 ++ (prAnchor ++ (g4 ++ (lottieRefBlock ++ (endRefMarker ++ (g5 ++ (lottieProdBlock ++ (endProdMarker ++ (g6)))))))))))))) (by decide) hb1
  have s1 : step1 (famP g0 g1 g2 g3 g4 g5 g6) = (g0 ++ (lottieBuildLine ++ (ins1 ++ (endPBX ++ (g1 ++ (lottieFwLine ++ (g2 ++ (ppdAnchor ++ (g3 ++ (prAnchor ++ (g4 ++ (lottieRefBlock ++ (endRefMarker ++ (g5 ++ (lottieProdBlock ++ (endProdMarker ++ (g6)))))))))))))))), []) := by
    rw [show (famP g0 g1 g2 g3 g4 g5 g6) = (g0 ++ (lottieBuildLine ++ (endPBX ++ (g1 ++ (lottieFwLine ++ (g2 ++ (ppdAnchor ++ (g3 ++ (prAnchor ++ (g4 ++ (lottieRefBlock ++ (endRefMarker ++ (g5 ++ (lottieProdBlock ++ (endProdMarker ++ (g6)))))))))))))))) from by simp [famP, List.append_assoc]]
    rw [step1, if_pos (hasMatch2_seam2 a1p1 a1p2 (g0) (lottieBuildLine) (endPBX) (g1 ++ (lottieFwLine ++ (g2 ++ (ppdAnchor ++ (g3 ++ (prAnchor ++ (g4 ++ (lottieRefBlock ++ (endRefMarker ++ (g5 ++ (lottieProdBlock ++ (endProdMarker ++ (g6))))))))))))) (seam_a1m1 (endPBX ++ (g1 ++ (lottieFwLine ++ (g2 ++ (ppdAnchor ++ (g3 ++ (prAnchor ++ (g4 ++ (lottieRefBlock ++ (endRefMarker ++ (g5 ++ (lottieProdBlock ++ (endProdMarker ++ (g6))))))))))))))) (seam_a1m2 (g1 ++ (lottieFwLine ++ (g2 ++ (ppdAnchor ++ (g3 ++ (prAnchor ++ (g4 ++ (lottieRefBlock ++ (endRefMarker ++ (g5 ++ (lottieProdBlock ++ (endProdMarker ++ (g6))))))))))))))), p1]
  have p2 := reSubIns_single1 a2p1 ins2 (g0 ++ (lottieBuildLine ++ (ins1 ++ (endPBX ++ (g1))))) lottieFwLine (g2 ++ (ppdAnchor ++ (g3 ++ (prAnchor ++ (g4 ++ (lottieRefBlock ++ (endRefMarker ++ (g5 ++ (lottieProdBlock ++ (endProdMarker ++ (g6))))))))))) ha2 (seam_a2 (g2 ++ (ppdAnchor ++ (g3 ++ (prAnchor ++ (g4 ++ (lottieRefBlock ++ (endRefMarker ++ (g5 ++ (lottieProdBlock ++ (endProdMarker ++ (g6)))))))))))) (by decide) hb2
  have s2 : step2 (g0 ++ (lottieBuildLine ++ (ins1 ++ (endPBX ++ (g1 ++ (lottieFwLine ++ (g2 ++ (ppdAnchor ++ (g3 ++ (prAnchor ++ (g4 ++ (lottieRefBlock ++ (endRefMarker ++ (g5 ++ (lottieProdBlock ++ (endProdMarker ++ (g6))))))))))))))))) = (g0 ++ (lottieBuildLine ++ (ins1 ++ (endPBX ++ (g1)))) ++ (lottieFwLine ++ (ins2 ++ (g2 ++ (ppdAnchor ++ (g3 ++ (prAnchor ++ (g4 ++ (lottieRefBlock ++ (endRefMarker ++ (g5 ++ (lottieProdBlock ++ (endProdMarker ++ (g6))))))))))))), []) := by
    rw [show (g0 ++ (lottieBuildLine ++ (ins1 ++ (endPBX ++ (g1 ++ (lottieFwLine ++ (g2 ++ (ppdAnchor ++ (g3 ++ (prAnchor ++ (g4 ++ (lottieRefBlock ++ (endRefMarker ++ (g5 ++ (lottieProdBlock ++ (endProdMarker ++ (g6))))))))))))))))) = (g0 ++ (lottieBuildLine ++ (ins1 ++ (endPBX ++ (g1)))) ++ (lottieFwLine ++ (g2 ++ (ppdAnchor ++ (g3 ++ (prAnchor ++ (g4 ++ (lottieRefBlock ++ (endRefMarker ++ (g5 ++ (lottieProdBlock ++ (endProdMarker ++ (g6))))))))))))) from by simp [List.append_assoc]]
    rw [step2, if_pos (hasMatch2_seam1 a2p1 (g0 ++ (lottieBuildLine ++ (ins1 ++ (endPBX ++ (g1))))) (g2 ++ (ppdAnchor ++ (g3 ++ (prAnchor ++ (g4 ++ (lottieRefBlock ++ (endRefMarker ++ (g5 ++ (lottieProdBlock ++ (endProdMarker ++ (g6))))))))))) (seam_a2 (g2 ++ (ppdAnchor ++ (g3 ++ (prAnchor ++ (g4 ++ (lottieRefBlock ++ (endRefMarker ++ (g5 ++ (lottieProdBlock ++ (endProdMarker ++ (g6))))))))))))), p2]
  have p3 := reSubIns_single1 a3p1 ins3 (g0 ++ (lottieBuildLine ++ (ins1 ++ (endPBX ++ (g1 ++ (lottieFwLine ++ (ins2 ++ (g2)))))))) ppdAnchor (g3 ++ (prAnchor ++ (g4 ++ (lottieRefBlock ++ (endRefMarker ++ (g5 ++ (lottieProdBlock ++ (endProdMarker ++ (g6))))))))) ha3 (seam_a3 (g3 ++ (prAnchor ++ (g4 ++ (lottieRefBlock ++ (endRefMarker ++ (g5 ++ (lottieProdBlock ++ (endProdMarker ++ (g6)))))))))) (by decide) hb3
  have s3 : step3 (g0 ++ (lottieBuildLine ++ (ins1 ++ (endPBX ++ (g1)))) ++ (lottieFwLine ++ (ins2 ++ (g2 ++ (ppdAnchor ++ (g3 ++ (prAnchor ++ (g4 ++ (lottieRefBlock ++ (endRefMarker ++ (g5 ++ (lottieProdBlock ++ (endProdMarker ++ (g6)))))))))))))) = (g0 ++ (lottieBuildLine ++ (ins1 ++ (endPBX ++ (g1 ++ (lottieFwLine ++ (ins2 ++ (g2))))))) ++ (ppdAnchor ++ (ins3 ++ (g3 ++ (prAnchor ++ (g4 ++ (lottieRefBlock ++ (endRefMarker ++ (g5 ++ (lottieProdBlock ++ (endProdMarker ++ (g6))))))))))), []) := by
    rw [show (g0 ++ (lottieBuildLine ++ (ins1 ++ (endPBX ++ (g1)))) ++ (lottieFwLine ++ (ins2 ++ (g2 ++ (ppdAnchor ++ (g3 ++ (prAnchor ++ (g4 ++ (lottieRefBlock ++ (endRefMarker ++ (g5 ++ (lottieProdBlock ++ (endProdMarker ++ (g6)))))))))))))) = (g0 ++ (lottieBuildLine ++ (ins1 ++ (endPBX ++ (g1 ++ (lottieFwLine ++ (ins2 ++ (g2))))))) ++ (ppdAnchor ++ (g3 ++ (prAnchor ++ (g4 ++ (lottieRefBlock ++ (endRefMarker ++ (g5 ++ (lottieProdBlock ++ (endProdMarker ++ (g6))))))))))) from by simp [List.append_assoc]]
    rw [step3, if_pos (hasMatch2_seam1 a3p1 (g0 ++ (lottieBuildLine ++ (ins1 ++ (endPBX ++ (g1 ++ (lottieFwLine ++ (ins2 ++ (g2)))))))) (g3 ++ (prAnchor ++ (g4 ++ (lottieRefBlock ++ (endRefMarker ++ (g5 ++ (lottieProdBlock ++ (endProdMarker ++ (g6))))))))) (seam_a3 (g3 ++ (prAnchor ++ (g4 ++ (lottieRefBlock ++ (endRefMarker ++ (g5 ++ (lottieProdBlock ++ (endProdMarker ++ (g6))))))))))), p3]
  have p4 := reSubIns_single1 a4p1 ins4 (g0 ++ (lottieBuildLine ++ (ins1 ++ (endPBX ++ (g1 ++ (lottieFwLine ++ (ins2 ++ (g2 ++ (ppdAnchor ++ (ins3 ++ (g3))))))))))) prAnchor (g4 ++ (lottieRefBlock ++ (endRefMarker ++ (g5 ++ (lottieProdBlock ++ (endProdMarker ++ (g6))))))) ha4 (seam_a4 (g4 ++ (lottieRefBlock ++ (endRefMarker ++ (g5 ++ (lottieProdBlock ++ (endProdMarker ++ (g6)))))))) (by decide) hb4
  have s4 : step4 (g0 ++ (lottieBuildLine ++ (ins1 ++ (endPBX ++ (g1 ++ (lottieFwLine ++ (ins2 ++ (g2))))))) ++ (ppdAnchor ++ (ins3 ++ (g3 ++ (prAnchor ++ (g4 ++ (lottieRefBlock ++ (endRefMarker ++ (g5 ++ (lottieProdBlock ++ (endProdMarker ++ (g6)))))))))))) = (g0 ++ (lottieBuildLine ++ (ins1 ++ (endPBX ++ (g1 ++ (lottieFwLine ++ (ins2 ++ (g2 ++ (ppdAnchor ++ (ins3 ++ (g3)))))))))) ++ (prAnchor ++ (ins4 ++ (g4 ++ (lottieRefBlock ++ (endRefMarker ++ (g5 ++ (lottieProdBlock ++ (endProdMarker ++ (g6))))))))), []) := by
    rw [show (g0 ++ (lottieBuildLine ++ (ins1 ++ (endPBX ++ (g1 ++ (lottieFwLine ++ (ins2 ++ (g2))))))) ++ (ppdAnchor ++ (ins3 ++ (g3 ++ (prAnchor ++ (g4 ++ (lottieRefBlock ++ (endRefMarker ++ (g5 ++ (lottieProdBlock ++ (endProdMarker ++ (g6)))))))))))) = (g0 ++ (lottieBuildLine ++ (ins1 ++ (endPBX ++ (g1 ++ (lottieFwLine ++ (ins2 ++ (g2 ++ (ppdAnchor ++ (ins3 ++ (g3)))))))))) ++ (prAnchor ++ (g4 ++ (lottieRefBlock ++ (endRefMarker ++ (g5 ++ (lottieProdBlock ++ (endProdMarker ++ (g6))))))))) from by simp [List.append_assoc]]
    rw [step4, if_pos (hasMatch2_seam1 a4p1 (g0 ++ (lottieBuildLine ++ (ins1 ++ (endPBX ++ (g1 ++ (lottieFwLine ++ (ins2 ++ (g2 ++ (ppdAnchor ++ (ins3 ++ (g3))))))))))) (g4 ++ (lottieRefBlock ++ (endRefMarker ++ (g5 ++ (lottieProdBlock ++ (endProdMarker ++ (g6))))))) (seam_a4 (g4 ++ (lottieRefBlock ++ (endRefMarker ++ (g5 ++ (lottieProdBlock ++ (endProdMarker ++ (g6))))))))), p4]
  have p5 := reSubIns_single1 a5p1 ins5 (g0 ++ (lottieBuildLine ++ (ins1 ++ (endPBX ++ (g1 ++ (lottieFwLine ++ (ins2 ++ (g2 ++ (ppdAnchor ++ (ins3 ++ (g3 ++ (prAnchor ++ (ins4 ++ (g4)))))))))))))) lottieRefBlock (endRefMarker ++ (g5 ++ (lottieProdBlock ++ (endProdMarker ++ (g6))))) ha5 (seam_a5 (endRefMarker ++ (g5 ++ (lottieProdBlock ++ (endProdMarker ++ (g6)))))) (by decide) hb5
  have s5 : step5 (g0 ++ (lottieBuildLine ++ (ins1 ++ (endPBX ++ (g1 ++ (lottieFwLine ++ (ins2 ++ (g2 ++ (ppdAnchor ++ (ins3 ++ (g3)))))))))) ++ (prAnchor ++ (ins4 ++ (g4 ++ (lottieRefBlock ++ (endRefMarker ++ (g5 ++ (lottieProdBlock ++ (endProdMarker ++ (g6)))))))))) = (g0 ++ (lottieBuildLine ++ (ins1 ++ (endPBX ++ (g1 ++ (lottieFwLine ++ (ins2 ++ (g2 ++ (ppdAnchor ++ (ins3 ++ (g3 ++ (prAnchor ++ (ins4 ++ (g4))))))))))))) ++ (lottieRefBlock ++ (ins5 ++ (endRefMarker ++ (g5 ++ (lottieProdBlock ++ (endProdMarker ++ (g6))))))), []) := by
    rw [show (g0 ++ (lottieBuildLine ++ (ins1 ++ (endPBX ++ (g1 ++ (lottieFwLine ++ (ins2 ++ (g2 ++ (ppdAnchor ++ (ins3 ++ (g3)))))))))) ++ (prAnchor ++ (ins4 ++ (g4 ++ (lottieRefBlock ++ (endRefMarker ++ (g5 ++ (lottieProdBlock ++ (endProdMarker ++ (g6)))))))))) = (g0 ++ (lottieBuildLine ++ (ins1 ++ (endPBX ++ (g1 ++ (lottieFwLine ++ (ins2 ++ (g2 ++ (ppdAnchor ++ (ins3 ++ (g3 ++ (prAnchor ++ (ins4 ++ (g4))))))))))))) ++ (lottieRefBlock ++ (endRefMarker ++ (g5 ++ (lottieProdBlock ++ (endProdMarker ++ (g6))))))) from by simp [List.append_assoc]]
    rw [step5, if_pos (hasMatch2_seam1 a5p1 (g0 ++ (lottieBuildLine ++ (ins1 ++ (endPBX ++ (g1 ++ (lottieFwLine ++ (ins2 ++ (g2 ++ (ppdAnchor ++ (ins3 ++ (g3 ++ (prAnchor ++ (ins4 ++ (g4)))))))))))))) (endRefMarker ++ (g5 ++ (lottieProdBlock ++ (endProdMarker ++ (g6))))) (seam_a5 (endRefMarker ++ (g5 ++ (lottieProdBlock ++ (endProdMarker ++ (g6))))))), p5]
  have p6 := reSubIns_single1 a6p1 ins6 (g0 ++ (lottieBuildLine ++ (ins1 ++ (endPBX ++ (g1 ++ (lottieFwLine ++ (ins2 ++ (g2 ++ (ppdAnchor ++ (ins3 ++ (g3 ++ (prAnchor ++ (ins4 ++ (g4 ++ (lottieRefBlock ++ (ins5 ++ (endRefMarker ++ (g5)))))))))))))))))) lottieProdBlock (endProdMarker ++ (g6)) ha6 (seam_a6 (endProdMarker ++ (g6))) (by decide) hb6
  have s6 : step6 (g0 ++ (lottieBuildLine ++ (ins1 ++ (endPBX ++ (g1 ++ (lottieFwLine ++ (ins2 ++ (g2 ++ (ppdAnchor ++ (ins3 ++ (g3 ++ (prAnchor ++ (ins4 ++ (g4))))))))))))) ++ (lottieRefBlock ++ (ins5 ++ (endRefMarker ++ (g5 ++ (lottieProdBlock ++ (endProdMarker ++ (g6)))))))) = (g0 ++ (lottieBuildLine ++ (ins1 ++ (endPBX ++ (g1 ++ (lottieFwLine ++ (ins2 ++ (g2 ++ (ppdAnchor ++ (ins3 ++ (g3 ++ (prAnchor ++ (ins4 ++ (g4 ++ (lottieRefBlock ++ (ins5 ++ (endRefMarker ++ (g5))))))))))))))))) ++ (lottieProdBlock ++ (ins6 ++ (endProdMarker ++ (g6)))), []) := by
    rw [show (g0 ++ (lottieBuildLine ++ (ins1 ++ (endPBX ++ (g1 ++ (lottieFwLine ++ (ins2 ++ (g2 ++ (ppdAnchor ++ (ins3 ++ (g3 ++ (prAnchor ++ (ins4 ++ (g4))))))))))))) ++ (lottieRefBlock ++ (ins5 ++ (endRefMarker ++ (g5 ++ (lottieProdBlock ++ (endProdMarker ++ (g6)))))))) = (g0 ++ (lottieBuildLine ++ (ins1 ++ (endPBX ++ (g1 ++ (lottieFwLine ++ (ins2 ++ (g2 ++ (ppdAnchor ++ (ins3 ++ (g3 ++ (prAnchor ++ (ins4 ++ (g4 ++ (lottieRefBlock ++ (ins5 ++ (endRefMarker ++ (g5))))))))))))))))) ++ (lottieProdBlock ++ (endProdMarker ++ (g6)))) from by simp [List.append_assoc]]
    rw [step6, if_pos (hasMatch2_seam1 a6p1 (g0 ++ (lottieBuildLine ++ (ins1 ++ (endPBX ++ (g1 ++ (lottieFwLine ++ (ins2 ++ (g2 ++ (ppdAnchor ++ (ins3 ++ (g3 ++ (prAnchor ++ (ins4 ++ (g4 ++ (lottieRefBlock ++ (ins5 ++ (endRefMarker ++ (g5)))))))))))))))))) (endProdMarker ++ (g6)) (seam_a6 (endProdMarker ++ (g6)))), p6]
  have efin : (g0 ++ (lottieBuildLine ++ (ins1 ++ (endPBX ++ (g1 ++ (lottieFwLine ++ (ins2 ++ (g2 ++ (ppdAnchor ++ (ins3 ++ (g3 ++ (prAnchor ++ (ins4 ++ (g4 ++ (lottieRefBlock ++ (ins5 ++ (endRefMarker ++ (g5))))))))))))))))) ++ (lottieProdBlock ++ (ins6 ++ (endProdMarker ++ (g6))))) = famAdded g0 g1 g2 g3 g4 g5 g6 := by
    simp [famAdded, List.append_assoc]
  simp only [runSteps, s1, s2, s3, s4, s5, s6, List.append_nil, efin]

/-- On the standard-layout family, `remove` after `add` deletes five of
the six entries whole but leaves the dangling two-tab closing line of the
package-reference block. -/
theorem famAdded_remove (g0 g1 g2 g3 g4 g5 g6 : List Char)
        (hc1 : noMatchBefore1 rp1 (g0 ++ (lottieBuildLine ++ (ins1 ++ (endPBX ++ (g1 ++ (lottieFwLine ++ (ins2 ++ (g2 ++ (ppdAnchor ++ (ins3 ++ (g3 ++ (prAnchor)))))))))))) (ins4 ++ (g4 ++ (lottieRefBlock ++ (ins5 ++ (endRefMarker ++ (g5 ++ (lottieProdBlock ++ (ins6 ++ (endProdMarker ++ (g6)))))))))) = true)
    (hd1 : hasMatch1 rp1 (g4 ++ (lottieRefBlock ++ (ins5 ++ (endRefMarker ++ (g5 ++ (lottieProdBlock ++ (ins6 ++ (endProdMarker ++ (g6))))))))) = false)
    (hc2 : noMatchBefore1 rp2 (g0 ++ (lottieBuildLine ++ (ins1 ++ (endPBX ++ (g1 ++ (lottieFwLine ++ (ins2 ++ (g2 ++ (ppdAnchor))))))))) (ins3 ++ (g3 ++ (prAnchor ++ (g4 ++ (lottieRefBlock ++ (ins5 ++ (endRefMarker ++ (g5 ++ (lottieProdBlock ++ (ins6 ++ (endProdMarker ++ (g6)))))))))))) = true)
    (hd2 : hasMatch1 rp2 (g3 ++ (prAnchor ++ (g4 ++ (lottieRefBlock ++ (ins5 ++ (endRefMarker ++ (g5 ++ (lottieProdBlock ++ (ins6 ++ (endProdMarker ++ (g6))))))))))) = false)
    (hc3 : noMatchBefore1 rp3 (g0 ++ (lottieBuildLine ++ (ins1 ++ (endPBX ++ (g1 ++ (lottieFwLine)))))) (ins2 ++ (g2 ++ (ppdAnchor ++ (g3 ++ (prAnchor ++ (g4 ++ (lottieRefBlock ++ (ins5 ++ (endRefMarker ++ (g5 ++ (lottieProdBlock ++ (ins6 ++ (endProdMarker ++ (g6)))))))))))))) = true)
    (hd3 : hasMatch1 rp3 (g2 ++ (ppdAnchor ++ (g3 ++ (prAnchor ++ (g4 ++ (lottieRefBlock ++ (ins5 ++ (endRefMarker ++ (g5 ++ (lottieProdBlock ++ (ins6 ++ (endProdMarker ++ (g6))))))))))))) = false)
    (hc4 : noMatchBefore1 rp4 (g0 ++ (lottieBuildLine)) (ins1 ++ (endPBX ++ (g1 ++ (lottieFwLine ++ (g2 ++ (ppdAnchor ++ (g3 ++ (prAnchor ++ (g4 ++ (lottieRefBlock ++ (ins5 ++ (endRefMarker ++ (g5 ++ (lottieProdBlock ++ (ins6 ++ (endProdMarker ++ (g6))))))))))))))))) = true)
    (hd4 : hasMatch1 rp4 (endPBX ++ (g1 ++ (lottieFwLine ++ (g2 ++ (ppdAnchor ++ (g3 ++ (prAnchor ++ (g4 ++ (lottieRefBlock ++ (ins5 ++ (endRefMarker ++ (g5 ++ (lottieProdBlock ++ (ins6 ++ (endProdMarker ++ (g6)))))))))))))))) = false)
    (hc5 : noMatchBefore1 rp5 (g0 ++ (lottieBuildLine ++ (endPBX ++ (g1 ++ (lottieFwLine ++ (g2 ++ (ppdAnchor ++ (g3 ++ (prAnchor ++ (g4 ++ (lottieRefBlock))))))))))) (ins5match ++ (residue ++ (endRefMarker ++ (g5 ++ (lottieProdBlock ++ (ins6 ++ (endProdMarker ++ (g6)))))))) = true)
    (hd5 : hasMatch1 rp5 (residue ++ (endRefMarker ++ (g5 ++ (lottieProdBlock ++ (ins6 ++ (endProdMarker ++ (g6))))))) = false)
    (hc6 : noMatchBefore1 rp6 (g0 ++ (lottieBuildLine ++ (endPBX ++ (g1 ++ (lottieFwLine ++ (g2 ++ (ppdAnchor ++ (g3 ++ (prAnchor ++ (g4 ++ (lottieRefBlock ++ (residue ++ (endRefMarker ++ (g5 ++ (lottieProdBlock))))))))))))))) (ins6 ++ (endProdMarker ++ (g6))) = true)
    (hd6 : hasMatch1 rp6 (endProdMarker ++ (g6)) = false) :
    removeContent (famAdded g0 g1 g2 g3 g4 g5 g6) = famRound g0 g1 g2 g3 g4 g5 g6 := by
  have d1 : reSubDel rp1 (famAdded g0 g1 g2 g3 g4 g5 g6) = (g0 ++ (lottieBuildLine ++ (ins1 ++ (endPBX ++ (g1 ++ (lottieFwLine ++ (ins2 ++ (g2 ++ (ppdAnchor ++ (ins3 ++ (g3 ++ (prAnchor))))))))))) ++ (g4 ++ (lottieRefBlock ++ (ins5 ++ (endRefMarker ++ (g5 ++ (lottieProdBlock ++ (ins6 ++ (endProdMarker ++ (g6)))))))))) := by
    rw [show (famAdded g0 g1 g2 g3 g4 g5 g6) = (g0 ++ (lottieBuildLine ++ (ins1 ++ (endPBX ++ (g1 ++ (lottieFwLine ++ (ins2 ++ (g2 ++ (ppdAnchor ++ (ins3 ++ (g3 ++ (prAnchor))))))))))) ++ (ins4 ++ (g4 ++ (lottieRefBlock ++ (ins5 ++ (endRefMarker ++ (g5 ++ (lottieProdBlock ++ (ins6 ++ (endProdMarker ++ (g6))))))))))) from by simp [famAdded, List.append_assoc]]
    exact reSubDel_single rp1 (g0 ++ (lottieBuildLine ++ (ins1 ++ (endPBX ++ (g1 ++ (lottieFwLine ++ (ins2 ++ (g2 ++ (ppdAnchor ++ (ins3 ++ (g3 ++ (prAnchor)))))))))))) ins4 (g4 ++ (lottieRefBlock ++ (ins5 ++ (endRefMarker ++ (g5 ++ (lottieProdBlock ++ (ins6 ++ (endProdMarker ++ (g6))))))))) hc1 (seam_rp1 (g4 ++ (lottieRefBlock ++ (ins5 ++ (endRefMarker ++ (g5 ++ (lottieProdBlock ++ (ins6 ++ (endProdMarker ++ (g6)))))))))) (by decide) hd1
  have d2 : reSubDel rp2 (g0 ++ (lottieBuildLine ++ (ins1 ++ (endPBX ++ (g1 ++ (lottieFwLine ++ (ins2 ++ (g2 ++ (ppdAnchor ++ (ins3 ++ (g3 ++ (prAnchor))))))))))) ++ (g4 ++ (lottieRefBlock ++ (ins5 ++ (endRefMarker ++ (g5 ++ (lottieProdBlock ++ (ins6 ++ (endProdMarker ++ (g6)))))))))) = (g0 ++ (lottieBuildLine ++ (ins1 ++ (endPBX ++ (g1 ++ (lottieFwLine ++ (ins2 ++ (g2 ++ (ppdAnchor)))))))) ++ (g3 ++ (prAnchor ++ (g4 ++ (lottieRefBlock ++ (ins5 ++ (endRefMarker ++ (g5 ++ (lottieProdBlock ++ (ins6 ++ (endProdMarker ++ (g6)))))))))))) := by
    rw [show (g0 ++ (lottieBuildLine ++ (ins1 ++ (endPBX ++ (g1 ++ (lottieFwLine ++ (ins2 ++ (g2 ++ (ppdAnchor ++ (ins3 ++ (g3 ++ (prAnchor))))))))))) ++ (g4 ++ (lottieRefBlock ++ (ins5 ++ (endRefMarker ++ (g5 ++ (lottieProdBlock ++ (ins6 ++ (endProdMarker ++ (g6)))))))))) = (g0 ++ (lottieBuildLine ++ (ins1 ++ (endPBX ++ (g1 ++ (lottieFwLine ++ (ins2 ++ (g2 ++ (ppdAnchor)))))))) ++ (ins3 ++ (g3 ++ (prAnchor ++ (g4 ++ (lottieRefBlock ++ (ins5 ++ (endRefMarker ++ (g5 ++ (lottieProdBlock ++ (ins6 ++ (endProdMarker ++ (g6))))))))))))) from by simp [List.append_assoc]]
    exact reSubDel_single rp2 (g0 ++ (lottieBuildLine ++ (ins1 ++ (endPBX ++ (g1 ++ (lottieFwLine ++ (ins2 ++ (g2 ++ (ppdAnchor))))))))) ins3 (g3 ++ (prAnchor ++ (g4 ++ (lottieRefBlock ++ (ins5 ++ (endRefMarker ++ (g5 ++ (lottieProdBlock ++ (ins6 ++ (endProdMarker ++ (g6))))))))))) hc2 (seam_rp2 (g3 ++ (prAnchor ++ (g4 ++ (lottieRefBlock ++ (ins5 ++ (endRefMarker ++ (g5 ++ (lottieProdBlock ++ (ins6 ++ (endProdMarker ++ (g6)))))))))))) (by decide) hd2
  have d3 : reSubDel rp3 (g0 ++ (lottieBuildLine ++ (ins1 ++ (endPBX ++ (g1 ++ (lottieFwLine ++ (ins2 ++ (g2 ++ (ppdAnchor)))))))) ++ (g3 ++ (prAnchor ++ (g4 ++ (lottieRefBlock ++ (ins5 ++ (endRefMarker ++ (g5 ++ (lottieProdBlock ++ (ins6 ++ (endProdMarker ++ (g6)))))))))))) = (g0 ++ (lottieBuildLine ++ (ins1 ++ (endPBX ++ (g1 ++ (lottieFwLine))))) ++ (g2 ++ (ppdAnchor ++ (g3 ++ (prAnchor ++ (g4 ++ (lottieRefBlock ++ (ins5 ++ (endRefMarker ++ (g5 ++ (lottieProdBlock ++ (ins6 ++ (endProdMarker ++ (g6)))))))))))))) := by
    rw [show (g0 ++ (lottieBuildLine ++ (ins1 ++ (endPBX ++ (g1 ++ (lottieFwLine ++ (ins2 ++ (g2 ++ (ppdAnchor)))))))) ++ (g3 ++ (prAnchor ++ (g4 ++ (lottieRefBlock ++ (ins5 ++ (endRefMarker ++ (g5 ++ (lottieProdBlock ++ (ins6 ++ (endProdMarker ++ (g6)))))))))))) = (g0 ++ (lottieBuildLine ++ (ins1 ++ (endPBX ++ (g1 ++ (lottieFwLine))))) ++ (ins2 ++ (g2 ++ (ppdAnchor ++ (g3 ++ (prAnchor ++ (g4 ++ (lottieRefBlock ++ (ins5 ++ (endRefMarker ++ (g5 ++ (lottieProdBlock ++ (ins6 ++ (endProdMarker ++ (g6))))))))))))))) from by simp [List.append_assoc]]
    exact reSubDel_single rp3 (g0 ++ (lottieBuildLine ++ (ins1 ++ (endPBX ++ (g1 ++ (lottieFwLine)))))) ins2 (g2 ++ (ppdAnchor ++ (g3 ++ (prAnchor ++ (g4 ++ (lottieRefBlock ++ (ins5 ++ (endRefMarker ++ (g5 ++ (lottieProdBlock ++ (ins6 ++ (endProdMarker ++ (g6))))))))))))) hc3 (seam_rp3 (g2 ++ (ppdAnchor ++ (g3 ++ (prAnchor ++ (g4 ++ (lottieRefBlock ++ (ins5 ++ (endRefMarker ++ (g5 ++ (lottieProdBlock ++ (ins6 ++ (endProdMarker ++ (g6)))))))))))))) (by decide) hd3
  have d4 : reSubDel rp4 (g0 ++ (lottieBuildLine ++ (ins1 ++ (endPBX ++ (g1 ++ (lottieFwLine))))) ++ (g2 ++ (ppdAnchor ++ (g3 ++ (prAnchor ++ (g4 ++ (lottieRefBlock ++ (ins5 ++ (endRefMarker ++ (g5 ++ (lottieProdBlock ++ (ins6 ++ (endProdMarker ++ (g6)))))))))))))) = (g0 ++ (lottieBuildLine) ++ (endPBX ++ (g1 ++ (lottieFwLine ++ (g2 ++ (ppdAnchor ++ (g3 ++ (prAnchor ++ (g4 ++ (lottieRefBlock ++ (ins5 ++ (endRefMarker ++ (g5 ++ (lottieProdBlock ++ (ins6 ++ (endProdMarker ++ (g6))))))))))))))))) := by
    rw [show (g0 ++ (lottieBuildLine ++ (ins1 ++ (endPBX ++ (g1 ++ (lottieFwLine))))) ++ (g2 ++ (ppdAnchor ++ (g3 ++ (prAnchor ++ (g4 ++ (lottieRefBlock ++ (ins5 ++ (endRefMarker ++ (g5 ++ (lottieProdBlock ++ (ins6 ++ (endProdMarker ++ (g6)))))))))))))) = (g0 ++ (lottieBuildLine) ++ (ins1 ++ (endPBX ++ (g1 ++ (lottieFwLine ++ (g2 ++ (ppdAnchor ++ (g3 ++ (prAnchor ++ (g4 ++ (lottieRefBlock ++ (ins5 ++ (endRefMarker ++ (g5 ++ (lottieProdBlock ++ (ins6 ++ (endProdMarker ++ (g6)))))))))))))))))) from by simp [List.append_assoc]]
    exact reSubDel_single rp4 (g0 ++ (lottieBuildLine)) ins1 (endPBX ++ (g1 ++ (lottieFwLine ++ (g2 ++ (ppdAnchor ++ (g3 ++ (prAnchor ++ (g4 ++ (lottieRefBlock ++ (ins5 ++ (endRefMarker ++ (g5 ++ (lottieProdBlock ++ (ins6 ++ (endProdMarker ++ (g6)))))))))))))))) hc4 (seam_rp4 (endPBX ++ (g1 ++ (lottieFwLine ++ (g2 ++ (ppdAnchor ++ (g3 ++ (prAnchor ++ (g4 ++ (lottieRefBlock ++ (ins5 ++ (endRefMarker ++ (g5 ++ (lottieProdBlock ++ (ins6 ++ (endProdMarker ++ (g6))))))))))))))))) (by decide) hd4
  have d5 : reSubDel rp5 (g0 ++ (lottieBuildLine) ++ (endPBX ++ (g1 ++ (lottieFwLine ++ (g2 ++ (ppdAnchor ++ (g3 ++ (prAnchor ++ (g4 ++ (lottieRefBlock ++ (ins5 ++ (endRefMarker ++ (g5 ++ (lottieProdBlock ++ (ins6 ++ (endProdMarker ++ (g6))))))))))))))))) = (g0 ++ (lottieBuildLine ++ (endPBX ++ (g1 ++ (lottieFwLine ++ (g2 ++ (ppdAnchor ++ (g3 ++ (prAnchor ++ (g4 ++ (lottieRefBlock)))))))))) ++ (residue ++ (endRefMarker ++ (g5 ++ (lottieProdBlock ++ (ins6 ++ (endProdMarker ++ (g6)))))))) := by
    rw [show (g0 ++ (lottieBuildLine) ++ (endPBX ++ (g1 ++ (lottieFwLine ++ (g2 ++ (ppdAnchor ++ (g3 ++ (prAnchor ++ (g4 ++ (lottieRefBlock ++ (ins5 ++ (endRefMarker ++ (g5 ++ (lottieProdBlock ++ (ins6 ++ (endProdMarker ++ (g6))))))))))))))))) = (g0 ++ (lottieBuildLine ++ (endPBX ++ (g1 ++ (lottieFwLine ++ (g2 ++ (ppdAnchor ++ (g3 ++ (prAnchor ++ (g4 ++ (lottieRefBlock)))))))))) ++ (ins5match ++ (residue ++ (endRefMarker ++ (g5 ++ (lottieProdBlock ++ (ins6 ++ (endProdMarker ++ (g6))))))))) from by rw [show ins5 = ins5match ++ residue from by decide]; simp [List.append_assoc]]
    exact reSubDel_single rp5 (g0 ++ (lottieBuildLine ++ (endPBX ++ (g1 ++ (lottieFwLine ++ (g2 ++ (ppdAnchor ++ (g3 ++ (prAnchor ++ (g4 ++ (lottieRefBlock))))))))))) ins5match (residue ++ (endRefMarker ++ (g5 ++ (lottieProdBlock ++ (ins6 ++ (endProdMarker ++ (g6))))))) hc5 (seam_rp5 (residue ++ (endRefMarker ++ (g5 ++ (lottieProdBlock ++ (ins6 ++ (endProdMarker ++ (g6)))))))) (by decide) hd5
  have d6 : reSubDel rp6 (g0 ++ (lottieBuildLine ++ (endPBX ++ (g1 ++ (lottieFwLine ++ (g2 ++ (ppdAnchor ++ (g3 ++ (prAnchor ++ (g4 ++ (lottieRefBlock)))))))))) ++ (residue ++ (endRefMarker ++ (g5 ++ (lottieProdBlock ++ (ins6 ++ (endProdMarker ++ (g6)))))))) = (g0 ++ (lottieBuildLine ++ (endPBX ++ (g1 ++ (lottieFwLine ++ (g2 ++ (ppdAnchor ++ (g3 ++ (prAnchor ++ (g4 ++ (lottieRefBlock ++ (residue ++ (endRefMarker ++ (g5 ++ (lottieProdBlock)))))))))))))) ++ (endProdMarker ++ (g6))) := by
    rw [show (g0 ++ (lottieBuildLine ++ (endPBX ++ (g1 ++ (lottieFwLine ++ (g2 ++ (ppdAnchor ++ (g3 ++ (prAnchor ++ (g4 ++ (lottieRefBlock)))))))))) ++ (residue ++ (endRefMarker ++ (g5 ++ (lottieProdBlock ++ (ins6 ++ (endProdMarker ++ (g6)))))))) = (g0 ++ (lottieBuildLine ++ (endPBX ++ (g1 ++ (lottieFwLine ++ (g2 ++ (ppdAnchor ++ (g3 ++ (prAnchor ++ (g4 ++ (lottieRefBlock ++ (residue ++ (endRefMarker ++ (g5 ++ (lottieProdBlock)))))))))))))) ++ (ins6 ++ (endProdMarker ++ (g6)))) from by simp [List.append_assoc]]
    exact reSubDel_single rp6 (g0 ++ (lottieBuildLine ++ (endPBX ++ (g1 ++ (lottieFwLine ++ (g2 ++ (ppdAnchor ++ (g3 ++ (prAnchor ++ (g4 ++ (lottieRefBlock ++ (residue ++ (endRefMarker ++ (g5 ++ (lottieProdBlock))))))))))))))) ins6 (endProdMarker ++ (g6)) hc6 (seam_rp6 (endProdMarker ++ (g6))) (by decide) hd6
  have efin : (g0 ++ (lottieBuildLine ++ (endPBX ++ (g1 ++ (lottieFwLine ++ (g2 ++ (ppdAnchor ++ (g3 ++ (prAnchor ++ (g4 ++ (lottieRefBlock ++ (residue ++ (endRefMarker ++ (g5 ++ (lottieProdBlock)))))))))))))) ++ (endProdMarker ++ (g6))) = famRound g0 g1 g2 g3 g4 g5 g6 := by
    simp [famRound, List.append_assoc]
  unfold removeContent
  rw [d1, d2, d3, d4, d5, d6, efin]

/-- Inserting the inert residue line cannot create an occurrence of a
needle that shares no character with it. -/
theorem famRound_no_needle (g0 g1 g2 g3 g4 g5 g6 needle : List Char)
    (hne : needle ≠ []) (hd : disjointChars residue needle = true)
    (hP : containsSub needle (famP g0 g1 g2 g3 g4 g5 g6) = false) :
    containsSub needle (famRound g0 g1 g2 g3 g4 g5 g6) = false := by
  rcases hb : containsSub needle (famRound g0 g1 g2 g3 g4 g5 g6)
  · rfl
  · exfalso
    have hR : famRound g0 g1 g2 g3 g4 g5 g6 =
        (g0 ++ lottieBuildLine ++ endPBX ++ g1 ++ lottieFwLine ++ g2 ++ ppdAnchor ++ g3 ++
          prAnchor ++ g4 ++ lottieRefBlock) ++
        (residue ++ (endRefMarker ++ g5 ++ lottieProdBlock ++ endProdMarker ++ g6)) := by
      simp [famRound, List.append_assoc]
    have hPeq : famP g0 g1 g2 g3 g4 g5 g6 =
        (g0 ++ lottieBuildLine ++ endPBX ++ g1 ++ lottieFwLine ++ g2 ++ ppdAnchor ++ g3 ++
          prAnchor ++ g4 ++ lottieRefBlock) ++
        (endRefMarker ++ g5 ++ lottieProdBlock ++ endProdMarker ++ g6) := by
      simp [famP, List.append_assoc]
    rw [hR] at hb
    rcases containsSub_append_mid hne (by decide) hd _ _ hb with hx | hy
    · have hx2 := containsSub_append_l
        (g0 ++ lottieBuildLine ++ endPBX ++ g1 ++ lottieFwLine ++ g2 ++ ppdAnchor ++ g3 ++
          prAnchor ++ g4 ++ lottieRefBlock)
        (endRefMarker ++ g5 ++ lottieProdBlock ++ endProdMarker ++ g6) hx
      rw [← hPeq, hP] at hx2
      exact Bool.noConfusion hx2
    · have hy2 := containsSub_append_r
        (g0 ++ lottieBuildLine ++ endPBX ++ g1 ++ lottieFwLine ++ g2 ++ ppdAnchor ++ g3 ++
          prAnchor ++ g4 ++ lottieRefBlock) hy
      rw [← hPeq, hP] at hy2
      exact Bool.noConfusion hy2

/-! ## Claim C4 -/

/-- C4 (amended): on every pristine descriptor file of the standard
single-target layout — each anchor matching only at its standard position
throughout the edit sequence, and no occurrence of the dependency name or
reserved identifier prefix — after `add` the file carries exactly one
entry for the managed dependency at each of the six locations, every entry
referencing the fixed reserved identifiers, and after `remove` no
occurrence of the dependency name or the reserved identifier prefix
remains anywhere in the file. -/
theorem c4_standard_layout (g0 g1 g2 g3 g4 g5 g6 : List Char)
    (hS : containsSub sparkleName (famP g0 g1 g2 g3 g4 g5 g6) = false)
    (hK : containsSub key27 (famP g0 g1 g2 g3 g4 g5 g6) = false)
    (ha1 : noMatchBefore2 a1p1 a1p2 (g0) (lottieBuildLine ++ (endPBX ++ (g1 ++ (lottieFwLine ++ (g2 ++ (ppdAnchor ++ (g3 ++ (prAnchor ++ (g4 ++ (lottieRefBlock ++ (endRefMarker ++ (g5 ++ (lottieProdBlock ++ (endProdMarker ++ (g6))))))))))))))) = true)
    (hb1 : hasMatch2 a1p1 a1p2 (g1 ++ (lottieFwLine ++ (g2 ++ (ppdAnchor ++ (g3 ++ (prAnchor ++ (g4 ++ (lottieRefBlock ++ (endRefMarker ++ (g5 ++ (lottieProdBlock ++ (endProdMarker ++ (g6))))))))))))) = false)
    (ha2 : noMatchBefore2 a2p1 [] (g0 ++ (lottieBuildLine ++ (ins1 ++ (endPBX ++ (g1))))) (lottieFwLine ++ (g2 ++ (ppdAnchor ++ (g3 ++ (prAnchor ++ (g4 ++ (lottieRefBlock ++ (endRefMarker ++ (g5 ++ (lottieProdBlock ++ (endProdMarker ++ (g6)))))))))))) = true)
    (hb2 : hasMatch2 a2p1 [] (g2 ++ (ppdAnchor ++ (g3 ++ (prAnchor ++ (g4 ++ (lottieRefBlock ++ (endRefMarker ++ (g5 ++ (lottieProdBlock ++ (endProdMarker ++ (g6))))))))))) = false)
    (ha3 : noMatchBefore2 a3p1 [] (g0 ++ (lottieBuildLine ++ (ins1 ++ (endPBX ++ (g1 ++ (lottieFwLine ++ (ins2 ++ (g2)))))))) (ppdAnchor ++ (g3 ++ (prAnchor ++ (g4 ++ (lottieRefBlock ++ (endRefMarker ++ (g5 ++ (lottieProdBlock ++ (endProdMarker ++ (g6)))))))))) = true)
    (hb3 : hasMatch2 a3p1 [] (g3 ++ (prAnchor ++ (g4 ++ (lottieRefBlock ++ (endRefMarker ++ (g5 ++ (lottieProdBlock ++ (endProdMarker ++ (g6))))))))) = false)
    (ha4 : noMatchBefore2 a4p1 [] (g0 ++ (lottieBuildLine ++ (ins1 ++ (endPBX ++ (g1 ++ (lottieFwLine ++ (ins2 ++ (g2 ++ (ppdAnchor ++ (ins3 ++ (g3))))))))))) (prAnchor ++ (g4 ++ (lottieRefBlock ++ (endRefMarker ++ (g5 ++ (lottieProdBlock ++ (endProdMarker ++ (g6)))))))) = true)
    (hb4 : hasMatch2 a4p1 [] (g4 ++ (lottieRefBlock ++ (endRefMarker ++ (g5 ++ (lottieProdBlock ++ (endProdMarker ++ (g6))))))) = false)
    (ha5 : noMatchBefore2 a5p1 [] (g0 ++ (lottieBuildLine ++ (ins1 ++ (endPBX ++ (g1 ++ (lottieFwLine ++ (ins2 ++ (g2 ++ (ppdAnchor ++ (ins3 ++ (g3 ++ (prAnchor ++ (ins4 ++ (g4)))))))))))))) (lottieRefBlock ++ (endRefMarker ++ (g5 ++ (lottieProdBlock ++ (endProdMarker ++ (g6)))))) = true)
    (hb5 : hasMatch2 a5p1 [] (endRefMarker ++ (g5 ++ (lottieProdBlock ++ (endProdMarker ++ (g6))))) = false)
    (ha6 : noMatchBefore2 a6p1 [] (g0 ++ (lottieBuildLine ++ (ins1 ++ (endPBX ++ (g1 ++ (lottieFwLine ++ (ins2 ++ (g2 ++ (ppdAnchor ++ (ins3 ++ (g3 ++ (prAnchor ++ (ins4 ++ (g4 ++ (lottieRefBlock ++ (ins5 ++ (endRefMarker ++ (g5)))))))))))))))))) (lottieProdBlock ++ (endProdMarker ++ (g6))) = true)
    (hb6 : hasMatch2 a6p1 [] (endProdMarker ++ (g6)) = false)
    (hc1 : noMatchBefore1 rp1 (g0 ++ (lottieBuildLine ++ (ins1 ++ (endPBX ++ (g1 ++ (lottieFwLine ++ (ins2 ++ (g2 ++ (ppdAnchor ++ (ins3 ++ (g3 ++ (prAnchor)))))))))))) (ins4 ++ (g4 ++ (lottieRefBlock ++ (ins5 ++ (endRefMarker ++ (g5 ++ (lottieProdBlock ++ (ins6 ++ (endProdMarker ++ (g6)))))))))) = true)
    (hd1 : hasMatch1 rp1 (g4 ++ (lottieRefBlock ++ (ins5 ++ (endRefMarker ++ (g5 ++ (lottieProdBlock ++ (ins6 ++ (endProdMarker ++ (g6))))))))) = false)
    (hc2 : noMatchBefore1 rp2 (g0 ++ (lottieBuildLine ++ (ins1 ++ (endPBX ++ (g1 ++ (lottieFwLine ++ (ins2 ++ (g2 ++ (ppdAnchor))))))))) (ins3 ++ (g3 ++ (prAnchor ++ (g4 ++ (lottieRefBlock ++ (ins5 ++ (endRefMarker ++ (g5 ++ (lottieProdBlock ++ (ins6 ++ (endProdMarker ++ (g6)))))))))))) = true)
    (hd2 : hasMatch1 rp2 (g3 ++ (prAnchor ++ (g4 ++ (lottieRefBlock ++ (ins5 ++ (endRefMarker ++ (g5 ++ (lottieProdBlock ++ (ins6 ++ (endProdMarker ++ (g6))))))))))) = false)
    (hc3 : noMatchBefore1 rp3 (g0 ++ (lottieBuildLine ++ (ins1 ++ (endPBX ++ (g1 ++ (lottieFwLine)))))) (ins2 ++ (g2 ++ (ppdAnchor ++ (g3 ++ (prAnchor ++ (g4 ++ (lottieRefBlock ++ (ins5 ++ (endRefMarker ++ (g5 ++ (lottieProdBlock ++ (ins6 ++ (endProdMarker ++ (g6)))))))))))))) = true)
    (hd3 : hasMatch1 rp3 (g2 ++ (ppdAnchor ++ (g3 ++ (prAnchor ++ (g4 ++ (lottieRefBlock ++ (ins5 ++ (endRefMarker ++ (g5 ++ (lottieProdBlock ++ (ins6 ++ (endProdMarker ++ (g6))))))))))))) = false)
    (hc4 : noMatchBefore1 rp4 (g0 ++ (lottieBuildLine)) (ins1 ++ (endPBX ++ (g1 ++ (lottieFwLine ++ (g2 ++ (ppdAnchor ++ (g3 ++ (prAnchor ++ (g4 ++ (lottieRefBlock ++ (ins5 ++ (endRefMarker ++ (g5 ++ (lottieProdBlock ++ (ins6 ++ (endProdMarker ++ (g6))))))))))))))))) = true)
    (hd4 : hasMatch1 rp4 (endPBX ++ (g1 ++ (lottieFwLine ++ (g2 ++ (ppdAnchor ++ (g3 ++ (prAnchor ++ (g4 ++ (lottieRefBlock ++ (ins5 ++ (endRefMarker ++ (g5 ++ (lottieProdBlock ++ (ins6 ++ (endProdMarker ++ (g6)))))))))))))))) = false)
    (hc5 : noMatchBefore1 rp5 (g0 ++ (lottieBuildLine ++ (endPBX ++ (g1 ++ (lottieFwLine ++ (g2 ++ (ppdAnchor ++ (g3 ++ (prAnchor ++ (g4 ++ (lottieRefBlock))))))))))) (ins5match ++ (residue ++ (endRefMarker ++ (g5 ++ (lottieProdBlock ++ (ins6 ++ (endProdMarker ++ (g6)))))))) = true)
    (hd5 : hasMatch1 rp5 (residue ++ (endRefMarker ++ (g5 ++ (lottieProdBlock ++ (ins6 ++ (endProdMarker ++ (g6))))))) = false)
    (hc6 : noMatchBefore1 rp6 (g0 ++ (lottieBuildLine ++ (endPBX ++ (g1 ++ (lottieFwLine ++ (g2 ++ (ppdAnchor ++ (g3 ++ (prAnchor ++ (g4 ++ (lottieRefBlock ++ (residue ++ (endRefMarker ++ (g5 ++ (lottieProdBlock))))))))))))))) (ins6 ++ (endProdMarker ++ (g6))) = true)
    (hd6 : hasMatch1 rp6 (endProdMarker ++ (g6)) = false) :
    addContent (famP g0 g1 g2 g3 g4 g5 g6) = famAdded g0 g1 g2 g3 g4 g5 g6 ∧
    removeContent (famAdded g0 g1 g2 g3 g4 g5 g6) = famRound g0 g1 g2 g3 g4 g5 g6 ∧
    containsSub sparkleName (famRound g0 g1 g2 g3 g4 g5 g6) = false ∧
    containsSub key27 (famRound g0 g1 g2 g3 g4 g5 g6) = false := by
  have hf : fullyConfigured (famP g0 g1 g2 g3 g4 g5 g6) = false := fullyConfigured_false_of_noSparkle hS
  refine ⟨?_, famAdded_remove g0 g1 g2 g3 g4 g5 g6 hc1 hd1 hc2 hd2 hc3 hd3 hc4 hd4 hc5 hd5 hc6 hd6, ?_, ?_⟩
  · rw [addContent, add_noclean hf hS, famP_add g0 g1 g2 g3 g4 g5 g6 ha1 hb1 ha2 hb2 ha3 hb3 ha4 hb4 ha5 hb5 ha6 hb6]
  · exact famRound_no_needle g0 g1 g2 g3 g4 g5 g6 sparkleName (by decide) (by decide) hS
  · exact famRound_no_needle g0 g1 g2 g3 g4 g5 g6 key27 (by decide) (by decide) hK

/-- Witness for C4 at the standard file's segments. -/
theorem c4_standard_layout_witness :
    addContent (famP pSeg0 pSeg1 pSeg2 pSeg3 pSeg4 pSeg5 pSeg6) =
      famAdded pSeg0 pSeg1 pSeg2 pSeg3 pSeg4 pSeg5 pSeg6 ∧
    removeContent (famAdded pSeg0 pSeg1 pSeg2 pSeg3 pSeg4 pSeg5 pSeg6) =
      famRound pSeg0 pSeg1 pSeg2 pSeg3 pSeg4 pSeg5 pSeg6 ∧
    containsSub sparkleName (famRound pSeg0 pSeg1 pSeg2 pSeg3 pSeg4 pSeg5 pSeg6) = false ∧
    containsSub key27 (famRound pSeg0 pSeg1 pSeg2 pSeg3 pSeg4 pSeg5 pSeg6) = false :=
  c4_standard_layout pSeg0 pSeg1 pSeg2 pSeg3 pSeg4 pSeg5 pSeg6
    (by decide)
    (by decide)
    (by decide)
    (by decide)
    (by decide)
    (by decide)
    (by decide)
    (by decide)
    (by decide)
    (by decide)
    (by decide)
    (by decide)
    (by decide)
    (by decide)
    (by decide)
    (by decide)
    (by decide)
    (by decide)
    (by decide)
    (by decide)
    (by decide)
    (by decide)
    (by decide)
    (by decide)
    (by decide)
    (by decide)

/-- C4 counterexample: a descriptor file containing all anchor texts plus
stray comment text that fools the fully-configured detection (nine
occurrences of the name and a copy of the primary marker): `add` succeeds
as a no-op, yet none of the six locations contains any entry. -/
theorem c4_counterexample_padded_file :
    fullyConfigured paddedP = true ∧
    add_sparkle paddedP =
      { content := paddedP, writes := [], out := [Msg.alreadyConfigured],
        events := [Ev.read], success := true } ∧
    countOcc ins1 paddedP = 0 ∧ countOcc ins2 paddedP = 0 ∧ countOcc ins3 paddedP = 0 ∧
    countOcc ins4 paddedP = 0 ∧ countOcc ins5 paddedP = 0 ∧ countOcc ins6 paddedP = 0 := by
  have hf : fullyConfigured paddedP = true := by decide
  exact ⟨hf, add_fully hf, by decide, by decide, by decide, by decide, by decide, by decide⟩
